import Mathlib

set_option autoImplicit false

/- Shallow embedding of the fraud-investigation workflow engine of this
repository (src/backend/agents: base_agent.py, risk_analyst.py,
fraud_investigator.py, compliance_agent.py, orchestrator.py).

Modelling conventions, chosen so that every definition is executable and
kernel-reducible:

* Python dynamic (JSON-like) values are the inductive `JVal`; Python dicts
  are insertion-ordered association lists (`Dict`).
* Python floats are idealised as fixed-point integers in micro-units
  (scale 1,000,000): the value v is represented by the integer v * 10^6.
  Every numeric literal of the source (0.3, 0.25, 0.4, 0.5, 5000, 10000, ...)
  is exactly representable at this scale, and every comparison the claims
  exercise is robust to this idealisation.  A dollar amount of 6000.00 is
  the integer 6000000000.
* Python exceptions are `Except String`; the `.error` message only needs to
  be nonempty evidence of the raised exception, its exact text is not part
  of any claim.
* `BedrockAgent.invoke` (the external reasoning capability) is a parameter
  of type `Except String String`: `.ok text` is the returned text and
  `.error e` a raised exception.  The prompt strings built by the agents
  feed only this external call, so they are not reconstructed here.
* `json.loads` is abstracted as a parameter
  `loads : String -> Except String JVal` (`.error e` being a
  JSONDecodeError with message `e`); the claims quantify over it, which
  covers every possible response text.
* Wall-clock timestamps (`datetime.now()`) are not modelled; the
  `timestamp` fields carry no information used by any claim.
* The GNN branch of `RiskAnalystAgent.analyze_risk` is unreachable at the
  only call site (the orchestrator always passes `graph_data=None`), so the
  embedding follows the heuristic branch, exactly as executed.
-/

/-! ## Python value model -/

inductive JVal where
  | null
  | bool (b : Bool)
  | num (m : ℤ)
  | str (s : String)
  | arr (xs : List JVal)
  | obj (fields : List (String × JVal))

instance : Inhabited JVal := ⟨JVal.null⟩

abbrev Dict := List (String × JVal)

/-- Python `d.get(k)` (first binding wins; Python dicts have unique keys and
our construction never duplicates one, so first-wins is exact). -/
def dget : Dict → String → Option JVal
  | [], _ => none
  | (k', v) :: rest, k => if k' = k then some v else dget rest k

/-- Python `d.get(k, dflt)`. -/
def dgetD (d : Dict) (k : String) (dflt : JVal) : JVal := (dget d k).getD dflt

/-- Python `d[k] = v`: replace in place, else append (insertion order kept). -/
def dset : Dict → String → JVal → Dict
  | [], k, v => [(k, v)]
  | (k', v') :: rest, k, v =>
    if k' = k then (k', v) :: rest else (k', v') :: dset rest k v

/-- Python `d.setdefault(k, v)` restricted to its effect on the dict. -/
def dsetd (d : Dict) (k : String) (v : JVal) : Dict :=
  match dget d k with
  | some _ => d
  | none => d ++ [(k, v)]

/-- Python truthiness of a value (used by `if value:` and `x or y`). -/
def pyTruthy : JVal → Bool
  | .null => false
  | .bool b => b
  | .num m => m != 0
  | .str s => !s.isEmpty
  | .arr xs => !xs.isEmpty
  | .obj fs => !fs.isEmpty

/-- Python `v == s` for a string literal `s` (no cross-type equality). -/
def isStrEq (v : JVal) (s : String) : Bool :=
  match v with
  | .str t => t == s
  | _ => false

/-- Numeric reading of a value, in micro-units.  Python numbers and bools
are usable in numeric comparisons; anything else would raise a TypeError
there — the call sites below only reach this on keys the code itself has
just stored as numbers, so the non-numeric case is unreachable and is given
the comparison-neutral reading `none`. -/
def jvalAsNum : JVal → Option ℤ
  | .num m => some m
  | .bool b => some (if b then 1000000 else 0)
  | _ => none

/-- Python `len(v)`. -/
def pyLen : JVal → Except String ℕ
  | .str s => .ok s.length
  | .arr xs => .ok xs.length
  | .obj fs => .ok fs.length
  | _ => .error "TypeError: object has no len()"

/-- Python `d[k]` on a dict. -/
def pyIndex (d : Dict) (k : String) : Except String JVal :=
  match dget d k with
  | some v => .ok v
  | none => .error ("KeyError: " ++ k)

def exceptIsOk {α : Type} : Except String α → Bool
  | .ok _ => true
  | .error _ => false

/-! ## String helpers with Python semantics (all structurally recursive, so
that concrete runs reduce inside the kernel) -/

def strHasPrefix : List Char → List Char → Bool
  | _, [] => true
  | [], _ :: _ => false
  | c :: cs, p :: ps => c == p && strHasPrefix cs ps

def splitOnLoop (sep : List Char) : ℕ → List Char → List Char → List (List Char)
  | 0, acc, _ => [acc.reverse]
  | _ + 1, acc, [] => [acc.reverse]
  | fuel + 1, acc, c :: cs =>
    if strHasPrefix (c :: cs) sep then
      acc.reverse :: splitOnLoop sep fuel [] ((c :: cs).drop sep.length)
    else splitOnLoop sep fuel (c :: acc) cs

/-- Python `s.split(sep)` for a nonempty separator: split on every
non-overlapping occurrence, left to right. -/
def pySplit (s sep : String) : List String :=
  (splitOnLoop sep.toList (s.toList.length + 1) [] s.toList).map fun cs => String.mk cs

/-- Python `sep in s` (substring test), phrased through the same split the
code performs right after the test. -/
def pyContainsSub (s sep : String) : Bool := 1 < (pySplit s sep).length

def isPySpace (c : Char) : Bool :=
  c == ' ' || c == '\t' || c == '\n' || c == '\r' || c == '\x0b' || c == '\x0c'

/-- Python `s.strip()` (ASCII whitespace; the responses in scope contain no
exotic unicode spacing). -/
def pyStrip (s : String) : String :=
  String.mk (((s.toList.dropWhile isPySpace).reverse.dropWhile isPySpace).reverse)

def strEndsWith (s suffix : String) : Bool :=
  strHasPrefix s.toList.reverse suffix.toList.reverse

def startsAux (s p : List Char) : Bool :=
  match p with
  | [] => true
  | c :: ps =>
    match s with
    | [] => false
    | a :: as => (a == c) && startsAux as ps
termination_by structural p

def strStartsWith (s p : String) : Bool :=
  startsAux s.toList p.toList

/-! ## Numeric formatting (Python format specs used by the source) -/

/-- Round `a / b` (with `b > 0` at every call site) to the nearest integer,
ties to even — the rounding of Python `format`. -/
def roundHalfEven (a b : ℤ) : ℤ :=
  let q := a.ediv b
  let r := a.emod b
  if 2 * r < b then q
  else if b < 2 * r then q + 1
  else if q % 2 = 0 then q else q + 1

def zpad (nd : ℕ) (m : ℕ) : String :=
  let s := toString m
  String.mk (List.replicate (nd - s.length) '0') ++ s

/-- Insert thousands separators into a digit list given least significant
digit first. -/
def groupDigits : List Char → List Char
  | [] => []
  | [a] => [a]
  | [a, b] => [a, b]
  | [a, b, c] => [a, b, c]
  | a :: b :: c :: rest => a :: b :: c :: ',' :: groupDigits rest

def commaNat (n : ℕ) : String :=
  String.mk (groupDigits (toString n).toList.reverse).reverse

/-- Python fixed-point formatting with nd decimal digits (and with `grouped`
also the thousands separator of the comma format spec) for a micro-unit
value; `nd ≤ 6`. -/
def fmtFixed (nd : ℕ) (grouped : Bool) (m : ℤ) : String :=
  let scaled := roundHalfEven m (10 ^ (6 - nd) : ℕ)
  let sign := if scaled < 0 then "-" else ""
  let a := scaled.natAbs
  let ip := if grouped then commaNat (a / 10 ^ nd) else toString (a / 10 ^ nd)
  if nd = 0 then sign ++ ip else sign ++ ip ++ "." ++ zpad nd (a % 10 ^ nd)

/-- Python percent formatting with zero decimal digits for a micro-unit value. -/
def fmtPct (m : ℤ) : String := toString (roundHalfEven (m * 100) 1000000) ++ "%"

/-- Decimal rendering of a micro-unit value, approximating Python `str` of a
number (trailing zeros dropped; integral values rendered without a decimal
point).  Only ever flows into free-text log strings no claim inspects. -/
def microStr (m : ℤ) : String :=
  let sign := if m < 0 then "-" else ""
  let a := m.natAbs
  let ip := a / 1000000
  let fr := a % 1000000
  if fr = 0 then sign ++ toString ip
  else
    let fs := String.mk (((zpad 6 fr).toList.reverse.dropWhile (· == '0')).reverse)
    sign ++ toString ip ++ "." ++ fs

mutual
/-- Python `repr(v)`. -/
def pyRepr : JVal → String
  | .null => "None"
  | .bool b => if b then "True" else "False"
  | .num m => microStr m
  | .str s => "\x27" ++ s ++ "\x27"
  | .arr xs => "[" ++ String.intercalate ", " (pyReprList xs) ++ "]"
  | .obj fs => "\x7b" ++ String.intercalate ", " (pyReprObj fs) ++ "\x7d"
def pyReprList : List JVal → List String
  | [] => []
  | x :: xs => pyRepr x :: pyReprList xs
def pyReprObj : List (String × JVal) → List String
  | [] => []
  | (k, v) :: xs => ("\x27" ++ k ++ "\x27: " ++ pyRepr v) :: pyReprObj xs
end

/-- Python `str(v)` / f-string interpolation of a value. -/
def pyStr : JVal → String
  | .str s => s
  | v => pyRepr v

/-- f-string `{v:.0%}`: numbers (and bools, which are ints in Python)
format; anything else raises. -/
def pyPctJ : JVal → Except String String
  | .num m => .ok (fmtPct m)
  | .bool b => .ok (fmtPct (if b then 1000000 else 0))
  | _ => .error "ValueError: unknown format code for object of this type"

/-- f-string `{v:.3f}`. -/
def pyFmt3J : JVal → Except String String
  | .num m => .ok (fmtFixed 3 false m)
  | .bool b => .ok (fmtFixed 3 false (if b then 1000000 else 0))
  | _ => .error "ValueError: unknown format code for object of this type"

/-! ## Transaction (src/backend: the dataset record fields the agents read).
`amount` is in micro-dollars. -/

structure Transaction where
  transaction_id : String
  timestamp : String
  from_account : String
  to_account : String
  amount : ℤ
  merchant_category : String
  device_id : String
  location : String
  hour : ℕ
  velocity : ℕ

/-! ## Case Assessor (risk_analyst.py) -/

structure RiskFactor where
  name : String
  contribution : ℤ
  reason : String

structure ScoreBreakdown where
  factors : List RiskFactor
  base_score : ℤ := 0
  total_score : ℤ := 0
  method : String := ""

def factorJ (f : RiskFactor) : JVal :=
  .obj [("name", .str f.name), ("contribution", .num f.contribution),
        ("reason", .str f.reason)]

def breakdownJ (b : ScoreBreakdown) : JVal :=
  .obj [("factors", .arr (b.factors.map factorJ)), ("base_score", .num b.base_score),
        ("total_score", .num b.total_score), ("method", .str b.method)]

/-- Embeds `RiskAnalystAgent._calculate_heuristic_risk`. -/
def calculate_heuristic_risk (t : Transaction) : ℤ × ScoreBreakdown :=
  let af : ℤ × List RiskFactor :=
    if t.amount < 1000000 then
      (300000, [⟨"Micro-transaction", 300000,
        "Amount $" ++ fmtFixed 2 false t.amount ++ " suggests card testing pattern"⟩])
    else if t.amount > 5000000000 then
      (200000, [⟨"Large transaction", 200000,
        "High value $" ++ fmtFixed 2 true t.amount ++ " exceeds typical threshold"⟩])
    else (0, [])
  let hf : ℤ × List RiskFactor :=
    if [0, 1, 2, 3, 4, 23].contains t.hour then
      (200000, [⟨"Unusual hours", 200000,
        "Transaction at " ++ toString t.hour ++ ":00 - high-risk time window"⟩])
    else (0, [])
  let lf : ℤ × List RiskFactor :=
    if ["Unknown", "Foreign", "VPN", "Proxy"].contains t.location then
      (250000, [⟨"Suspicious location", 250000,
        "Location \x27" ++ t.location ++ "\x27 indicates potential fraud"⟩])
    else (0, [])
  let mf : ℤ × List RiskFactor :=
    if ["Gift Cards", "Crypto", "Wire Transfer", "Electronics", "Jewelry"].contains
        t.merchant_category then
      (150000, [⟨"High-risk merchant", 150000,
        "\x27" ++ t.merchant_category ++ "\x27 category commonly used for fraud"⟩])
    else (0, [])
  let vf : ℤ × List RiskFactor :=
    if t.velocity > 5 then
      (100000, [⟨"High velocity", 100000,
        toString t.velocity ++ " transactions/hour exceeds normal rate"⟩])
    else (0, [])
  let score := af.1 + hf.1 + lf.1 + mf.1 + vf.1
  let final_score := min score 1000000
  (final_score,
   { factors := af.2 ++ hf.2 ++ lf.2 ++ mf.2 ++ vf.2, base_score := 0,
     total_score := final_score })

/-- Embeds `RiskAnalystAgent._score_to_level`. -/
def score_to_level (score : ℤ) : String :=
  if score ≥ 800000 then "Critical"
  else if score ≥ 600000 then "High"
  else if score ≥ 400000 then "Medium"
  else "Low"

/-- Embeds `RiskAnalystAgent._identify_patterns`. -/
def identify_patterns (t : Transaction) (risk_score : ℤ) : List String :=
  (if risk_score > 700000 then ["High GNN risk score"] else [])
  ++ (if t.amount < 1000000 then ["Card testing (micro-transaction)"]
      else if t.amount > 5000000000 then ["Large value transaction"] else [])
  ++ (if [0, 1, 2, 3, 4, 23].contains t.hour then ["Unusual transaction time"] else [])
  ++ (if ["Gift Cards", "Crypto", "Wire Transfer"].contains t.merchant_category then
        ["High-risk merchant: " ++ t.merchant_category] else [])
  ++ (if ["Unknown", "Foreign", "VPN", "Proxy"].contains t.location then
        ["Suspicious location: " ++ t.location] else [])
  ++ (if t.velocity > 5 then
        ["High velocity: " ++ toString t.velocity ++ " tx/hour"] else [])

/-- Stable descending insertion (Python `sorted(..., reverse=True)` keeps
equal keys in original order; an earlier element is inserted in front of every
element whose key it does not strictly trail). -/
def insertFactorDesc (x : RiskFactor) : List RiskFactor → List RiskFactor
  | [] => [x]
  | y :: ys =>
    if x.contribution ≥ y.contribution then x :: y :: ys
    else y :: insertFactorDesc x ys

def sortFactorsDesc : List RiskFactor → List RiskFactor
  | [] => []
  | x :: xs => insertFactorDesc x (sortFactorsDesc xs)

/-- Embeds `RiskAnalystAgent._generate_explanation`. -/
def generate_explanation (risk_score : ℤ) (b : ScoreBreakdown)
    (patterns : List String) : String :=
  let level := score_to_level risk_score
  let factors := b.factors
  if factors.isEmpty && patterns.isEmpty then
    level ++ " risk (" ++ fmtPct risk_score ++ "). No significant risk factors detected."
  else
    let top_factors := (sortFactorsDesc factors).take 3
    let reasons := top_factors.map (·.reason)
    if level = "Low" then
      level ++ " risk (" ++ fmtPct risk_score ++
        "). Transaction appears normal with no major red flags."
    else if level = "Medium" then
      level ++ " risk (" ++ fmtPct risk_score ++ "). " ++
        String.intercalate "; " (reasons.take 2) ++ ". Escalating for investigation."
    else
      level ++ " risk (" ++ fmtPct risk_score ++ "). " ++
        String.intercalate "; " reasons ++ ". Immediate review required."

/-! ## Response parsing (base_agent.py, `BedrockAgent._parse_json_response`) -/

/-- The candidate string the second parse attempt receives: the markdown
fence extraction of `_parse_json_response` (`response.split("```json")[1].split("```")[0].strip()`, etc.). -/
def extractCandidate (response : String) : String :=
  if pyContainsSub response "```json" then
    pyStrip ((pySplit ((pySplit response "```json").getD 1 "") "```").headD "")
  else if pyContainsSub response "```" then
    pyStrip ((pySplit ((pySplit response "```").getD 1 "") "```").headD "")
  else pyStrip response

/-- Embeds `BedrockAgent._parse_json_response`: direct parse, then fence-extracted
parse, then the degraded raw_response/parse_error payload.  Total — the
parsing step never raises. -/
def parse_json_response (loads : String → Except String JVal)
    (response : String) : JVal :=
  match loads response with
  | .ok j => j
  | .error _ =>
    match loads (extractCandidate response) with
    | .ok j => j
    | .error e => .obj [("raw_response", .str response), ("parse_error", .str e)]

/-- Embeds `RiskAnalystAgent.analyze_risk` as executed from the orchestrator
(`graph_data=None`, hence the heuristic scorer).  `resp` is the outcome of
`self.invoke(prompt)`; an `.error` there propagates (the method has no
handler), and a parsed non-dict response raises at the first field
assignment. -/
def analyze_risk (loads : String → Except String JVal)
    (resp : Except String String) (t : Transaction) : Except String Dict :=
  let hr := calculate_heuristic_risk t
  let risk_score := hr.1
  let bd : ScoreBreakdown := { hr.2 with method := "Heuristic" }
  let patterns := identify_patterns t risk_score
  match resp with
  | .error e => .error e
  | .ok response =>
    match parse_json_response loads response with
    | .obj d0 =>
      let d := dset d0 "risk_score" (.num risk_score)
      let d := dset d "patterns" (.arr (patterns.map .str))
      let d := dset d "score_breakdown" (breakdownJ bd)
      let d := dsetd d "risk_level" (.str (score_to_level risk_score))
      let d := dsetd d "risk_factors" (.arr [])
      let d := dsetd d "monitoring_actions" (.arr [])
      let d := dsetd d "prevention_strategies" (.arr [])
      let d := dset d "agent" (.str "Risk Analyst")
      .ok (dset d "explanation"
        (.str (generate_explanation risk_score bd patterns)))
    | _ => .error "TypeError: parsed response does not support item assignment"

/-! ## Deep Investigator (fraud_investigator.py) -/

/-- Embeds `FraudInvestigatorAgent.investigate_transaction`.  `_risk_score` and
`_patterns` feed only the prompt (hence only the external call, whose reply
is the parameter `resp`). -/
def investigate_transaction (loads : String → Except String JVal)
    (resp : Except String String) (_t : Transaction)
    (_risk_score : ℤ) (_patterns : JVal) : Except String Dict :=
  match resp with
  | .error e => .error e
  | .ok response =>
    match parse_json_response loads response with
    | .obj d0 =>
      let d := dsetd d0 "fraud_likelihood" (.str "Unknown")
      let d := dsetd d "recommendation" (.str "REVIEW")
      let d := dsetd d "fraud_indicators" (.arr [])
      let d := dsetd d "explanation" (.str response)
      let d := dsetd d "confidence" (.num 500000)
      let d := dsetd d "suggested_actions" (.arr [])
      .ok (dset d "agent" (.str "Fraud Investigator"))
    | _ => .error "AttributeError: parsed response has no attribute setdefault"

/-! ## Compliance Reviewer (compliance_agent.py) -/

/-- Python `needle not in v` for the container kinds a JSON value can be. -/
def pyNotInJ (needle : String) (v : JVal) : Except String Bool :=
  match v with
  | .arr xs => .ok (!(xs.any fun x => isStrEq x needle))
  | .str s => .ok (!pyContainsSub s needle)
  | .obj fs => .ok (!(fs.any fun p => p.1 == needle))
  | _ => .error "TypeError: argument is not iterable"

/-- Python `d.setdefault(k, []).append(x)`. -/
def dAppendAt (d : Dict) (k : String) (x : JVal) : Except String Dict :=
  match dget d k with
  | none => .ok (dset d k (.arr [x]))
  | some (.arr xs) => .ok (dset d k (.arr (xs ++ [x])))
  | some _ => .error "AttributeError: object has no attribute append"

/-- Embeds `ComplianceAgent._generate_compliance_summary`. -/
def generate_compliance_summary (result : Dict) (t : Transaction)
    (inv : Dict) : Except String String :=
  let amount := t.amount
  let parts1 : List String :=
    if pyTruthy (dgetD result "ctr_required" .null) then
      ["CTR required: $" ++ fmtFixed 2 true amount ++ " exceeds $10,000 threshold."]
    else []
  let parts2 : List String :=
    if pyTruthy (dgetD result "sar_required" .null) then
      ["SAR filing initiated: " ++ pyStr (dgetD inv "fraud_likelihood" (.str "Unknown"))
        ++ " fraud likelihood on $" ++ fmtFixed 2 true amount ++ " transaction."]
    else if amount > 5000000000 then
      ["SAR not required: Transaction $" ++ fmtFixed 2 true amount ++
        " reviewed, no suspicious indicators confirmed."]
    else []
  match pyLen (dgetD result "aml_violations" (.arr [])),
        pyLen (dgetD result "kyc_flags" (.arr [])) with
  | .ok aml, .ok kyc =>
    let parts3 := if aml > 0 then [toString aml ++ " AML violation(s) flagged for review."] else []
    let parts4 := if kyc > 0 then [toString kyc ++ " KYC flag(s) require verification."] else []
    let parts := parts1 ++ parts2 ++ parts3 ++ parts4
    let parts :=
      if parts.isEmpty then ["All compliance checks passed. No regulatory filings required."]
      else parts
    .ok (String.intercalate " " parts)
  | .error e, _ => .error e
  | _, .error e => .error e

/-- The tail of `ComplianceAgent.check_compliance` after the CTR override
block: SAR override, `setdefault` backfilling, agent tag and summary. -/
def compliance_finish (t : Transaction) (inv : Dict) (d1 : Dict) :
    Except String Dict :=
  let fl := dgetD inv "fraud_likelihood" (.str "Low")
  let d2 :=
    if t.amount > 5000000000 && (isStrEq fl "Medium" || isStrEq fl "High") then
      dsetd (dset d1 "sar_required" (.bool true)) "sar_reason"
        (.str ("Suspicious transaction over $5,000 with " ++ pyStr fl ++
          " fraud likelihood"))
    else d1
  let d3 := dsetd d2 "sar_required" (.bool false)
  let d3 := dsetd d3 "ctr_required" (.bool false)
  let d3 := dsetd d3 "sar_reason" (.str "")
  let d3 := dsetd d3 "aml_violations" (.arr [])
  let d3 := dsetd d3 "kyc_flags" (.arr [])
  let d3 := dsetd d3 "regulatory_actions" (.arr [])
  let d3 := dsetd d3 "compliance_notes" (.str "")
  let d3 := dsetd d3 "risk_rating" (.str "Low")
  let d4 := dset d3 "agent" (.str "Compliance Officer")
  match generate_compliance_summary d4 t inv with
  | .error e => .error e
  | .ok summary => .ok (dset d4 "compliance_summary" (.str summary))

/-- The CTR override block of `check_compliance` applied to the parsed
response dict. -/
def ctr_override (t : Transaction) (d0 : Dict) : Except String Dict :=
  if t.amount > 10000000000 then
    let d := dset d0 "ctr_required" (.bool true)
    match pyNotInJ "ctr_required" (dgetD d "regulatory_actions" (.arr [])) with
    | .error e => .error e
    | .ok cond =>
      if cond then
        dAppendAt d "regulatory_actions"
          (.str "File Currency Transaction Report (CTR) - amount exceeds $10,000")
      else .ok d
  else .ok d0

/-- Embeds `ComplianceAgent.check_compliance`.  The statutory overrides run after
parsing; a parsed non-dict raises at its first dict operation (every path
performs one before returning). -/
def check_compliance (loads : String → Except String JVal)
    (resp : Except String String) (t : Transaction) (inv : Dict) :
    Except String Dict :=
  match resp with
  | .error e => .error e
  | .ok response =>
    match parse_json_response loads response with
    | .obj d0 =>
      match ctr_override t d0 with
      | .error e => .error e
      | .ok d1 => compliance_finish t inv d1
    | _ => .error "TypeError: parsed response does not support item assignment"

/-! ## Workflow Engine (orchestrator.py) -/

/-- The LangGraph `InvestigationState` TypedDict.  A node returning a partial
dict replaces exactly the keys it returns, which the node functions below
express as record updates. -/
structure InvestigationState where
  transaction : Transaction
  transaction_id : String
  steps : List String
  risk_analysis : Option Dict
  fraud_investigation : Option Dict
  compliance_check : Option Dict
  final_decision : JVal
  decision_reason : Option String
  status : String
  error : Option String

/-- The result dict `investigate_async` builds from the final state and
returns (the serialised WorkflowRun; the state's `error` key is not copied
into it). -/
structure WorkflowRun where
  transaction_id : String
  steps : List String
  risk_analysis : Option Dict
  fraud_investigation : Option Dict
  compliance_check : Option Dict
  final_decision : JVal
  decision_reason : String
  status : String

/-- One `_emit_step` envelope.  `_emit_step` swallows callback exceptions,
so the emitted trace is exactly the list of calls made. -/
inductive WfEvent where
  | investigation_start (transaction_id : String)
  | agent_thinking (agent : String) (message : String)
  | agent_result (agent : String) (result : Dict)
  | investigation_complete (result : WorkflowRun)

/-- Embeds `FraudInvestigationOrchestrator._should_investigate`:
`risk_analysis and risk_analysis.get("risk_score", 0) > 0.4` (an absent or
empty risk analysis is falsy and routes to approve). -/
def should_investigate (ra? : Option Dict) : String :=
  match ra? with
  | some ra =>
    if ra.isEmpty = false ∧
        (400000 : ℤ) < (jvalAsNum (dgetD ra "risk_score" (.num 0))).getD 0 then
      "investigate"
    else "approve"
  | none => "approve"

/-- Embeds `FraudInvestigationOrchestrator._get_routing_reason` (as called from the
risk node, where the state passed in holds exactly the fresh analysis). -/
def get_routing_reason (ra : Dict) (route : String) : Except String String :=
  match pyPctJ (dgetD ra "risk_score" (.num 0)) with
  | .error e => .error e
  | .ok pct =>
    let rl := pyStr (dgetD ra "risk_level" (.str "Unknown"))
    .ok (if route = "approve" then
      "Risk score " ++ pct ++ " is below 40% threshold. " ++ rl ++
        " risk level - no further investigation needed. Transaction approved by Risk Analyst."
    else
      "Risk score " ++ pct ++ " exceeds 40% threshold. " ++ rl ++
        " risk level detected. Escalating to Fraud Investigator for detailed analysis.")

/-- The body of the `try` block of `_risk_analysis_node`: the analysis, the
routing annotations and the step message (computed before the `agent_result`
emission). -/
def risk_analysis_try (loads : String → Except String JVal)
    (resp : Except String String) (s : InvestigationState) :
    Except String (Dict × String) :=
  match analyze_risk loads resp s.transaction with
  | .error e => .error e
  | .ok ra0 =>
    let route := should_investigate (some ra0)
    match get_routing_reason ra0 route with
    | .error e => .error e
    | .ok rr =>
      let ra := dset ra0 "routing_reason" (.str rr)
      let ra := dset ra "escalated" (.bool (route == "investigate"))
      match pyIndex ra "risk_level", pyIndex ra "risk_score" with
      | .ok rl, .ok rs =>
        match pyFmt3J rs with
        | .ok f3 =>
          .ok (ra, "Risk Analyst: " ++ pyStr rl ++ " risk (score: " ++ f3 ++ ")")
        | .error e => .error e
      | .error e, _ => .error e
      | _, .error e => .error e

/-- Embeds `FraudInvestigationOrchestrator._risk_analysis_node`: on success it
returns the `risk_analysis` and `steps` keys; on an exception it returns
only `error` and `status` (and no `agent_result` event is emitted). -/
def risk_analysis_node (loads : String → Except String JVal)
    (resp : Except String String) (s : InvestigationState) :
    InvestigationState × List WfEvent :=
  let thinking := WfEvent.agent_thinking "Risk Analyst" "Analyzing transaction risk..."
  match risk_analysis_try loads resp s with
  | .ok x =>
    ({ s with risk_analysis := some x.1, steps := s.steps ++ [x.2] },
     [thinking, WfEvent.agent_result "Risk Analyst" x.1])
  | .error e =>
    ({ s with error := some e, status := "error" }, [thinking])

/-- The body of the `try` block of `_fraud_investigation_node`. -/
def fraud_investigation_try (loads : String → Except String JVal)
    (resp : Except String String) (s : InvestigationState) :
    Except String (Dict × String) :=
  let ra := s.risk_analysis.getD []
  match investigate_transaction loads resp s.transaction
      ((jvalAsNum (dgetD ra "risk_score" (.num 500000))).getD 500000)
      (dgetD ra "patterns" (.arr [])) with
  | .error e => .error e
  | .ok fi =>
    match pyIndex fi "recommendation", pyIndex fi "fraud_likelihood" with
    | .ok rec0, .ok fl =>
      .ok (fi, "Fraud Investigator: " ++ pyStr rec0 ++ " (" ++ pyStr fl ++ " likelihood)")
    | .error e, _ => .error e
    | _, .error e => .error e

/-- Embeds `FraudInvestigationOrchestrator._fraud_investigation_node`: an exception
inside the stage is converted into the fallback finding (note: it carries
only `recommendation`, `fraud_likelihood` and `explanation`). -/
def fraud_investigation_node (loads : String → Except String JVal)
    (resp : Except String String) (s : InvestigationState) :
    InvestigationState × List WfEvent :=
  let thinking := WfEvent.agent_thinking "Fraud Investigator" "Investigating suspicious activity..."
  match fraud_investigation_try loads resp s with
  | .ok x =>
    ({ s with fraud_investigation := some x.1, steps := s.steps ++ [x.2] },
     [thinking, WfEvent.agent_result "Fraud Investigator" x.1])
  | .error e =>
    ({ s with
        fraud_investigation := some
          [("recommendation", .str "REVIEW"), ("fraud_likelihood", .str "Unknown"),
           ("explanation", .str ("Investigation error: " ++ e))],
        steps := s.steps ++ ["Fraud Investigator: Error - " ++ e] },
     [thinking])

/-- The default finding `_compliance_check_node` substitutes when the state
holds no (or an empty, hence falsy) investigation result. -/
def defaultFinding : Dict :=
  [("recommendation", .str "REVIEW"), ("fraud_likelihood", .str "Unknown")]

/-- The body of the `try` block of `_compliance_check_node`. -/
def compliance_check_try (loads : String → Except String JVal)
    (resp : Except String String) (s : InvestigationState) :
    Except String (Dict × String) :=
  let fi :=
    match s.fraud_investigation with
    | some d => if d.isEmpty then defaultFinding else d
    | none => defaultFinding
  match check_compliance loads resp s.transaction fi with
  | .error e => .error e
  | .ok cc =>
    match pyIndex cc "sar_required" with
    | .error e => .error e
    | .ok sv =>
      .ok (cc, "Compliance Officer: SAR " ++
        (if pyTruthy sv then "required" else "not required"))

/-- Embeds `FraudInvestigationOrchestrator._compliance_check_node`. -/
def compliance_check_node (loads : String → Except String JVal)
    (resp : Except String String) (s : InvestigationState) :
    InvestigationState × List WfEvent :=
  let thinking := WfEvent.agent_thinking "Compliance Officer" "Checking regulatory requirements..."
  match compliance_check_try loads resp s with
  | .ok x =>
    ({ s with compliance_check := some x.1, steps := s.steps ++ [x.2] },
     [thinking, WfEvent.agent_result "Compliance Officer" x.1])
  | .error e =>
    ({ s with
        compliance_check := some
          [("sar_required", .bool false),
           ("compliance_notes", .str ("Compliance check error: " ++ e))],
        steps := s.steps ++ ["Compliance Officer: Error - " ++ e] },
     [thinking])

/-- Python `fraud_investigation["fraud_indicators"][:2]` followed by
`", ".join(...)`: slicing works on lists and strings; joining raises on any
non-string element. -/
def pySliceJoin2 (v : JVal) : Except String String :=
  match v with
  | .arr xs =>
    let ys := xs.take 2
    if ys.all fun x => match x with | .str _ => true | _ => false then
      .ok (String.intercalate ", " (ys.map pyStr))
    else .error "TypeError: sequence item: expected str instance"
  | .str s => .ok (String.intercalate ", " ((s.toList.take 2).map Char.toString))
  | _ => .error "TypeError: object is not subscriptable"

/-- Embeds `FraudInvestigationOrchestrator._build_decision_reason`.  Runs inside
`_finalize_node`, which has no exception handler, so a raise here escapes
the whole graph invocation. -/
def build_decision_reason (decision : JVal)
    (ra? fi? cc? : Option Dict) : Except String String :=
  let risk_score :=
    match ra? with
    | some ra => if ra.isEmpty then JVal.num 0 else dgetD ra "risk_score" (.num 0)
    | none => JVal.num 0
  let fl :=
    match fi? with
    | some fi => if fi.isEmpty then JVal.str "Unknown" else dgetD fi "fraud_likelihood" (.str "Unknown")
    | none => JVal.str "Unknown"
  let conf :=
    match fi? with
    | some fi => if fi.isEmpty then JVal.num 0 else dgetD fi "confidence" (.num 0)
    | none => JVal.num 0
  match pyPctJ risk_score with
  | .error e => .error e
  | .ok rpct =>
    let core : Except String (List String) :=
      if isStrEq decision "APPROVE" then
        if isStrEq fl "Low" then
          match pyPctJ conf with
          | .error e => .error e
          | .ok cpct =>
            .ok ["Approved: Risk score " ++ rpct,
                 "fraud likelihood low (" ++ cpct ++ " confidence)",
                 "no indicators require blocking."]
        else
          .ok ["Approved: Risk score " ++ rpct, "no indicators require blocking."]
      else if isStrEq decision "DECLINE" then
        match pyPctJ conf with
        | .error e => .error e
        | .ok cpct =>
          let base := ["Declined: Risk score " ++ rpct,
                       pyStr fl ++ " fraud likelihood (" ++ cpct ++ " confidence)."]
          match fi? with
          | some fi =>
            if !fi.isEmpty && pyTruthy (dgetD fi "fraud_indicators" .null) then
              match pySliceJoin2 (dgetD fi "fraud_indicators" .null) with
              | .error e => .error e
              | .ok ind => .ok (base ++ ["Key indicators: " ++ ind ++ "."])
            else .ok base
          | none => .ok base
      else
        .ok ["Manual Review Required: Risk score " ++ rpct,
             pyStr fl ++ " fraud likelihood.", "Mixed signals require human judgment."]
    match core with
    | .error e => .error e
    | .ok parts =>
      let cparts :=
        match cc? with
        | some cc =>
          if cc.isEmpty then []
          else
            (if pyTruthy (dgetD cc "sar_required" .null) then ["SAR filing initiated."] else [])
            ++ (if pyTruthy (dgetD cc "ctr_required" .null) then ["CTR required (>$10K)."] else [])
        | none => []
      .ok (String.intercalate " " (parts ++ cparts))

/-- Embeds `FraudInvestigationOrchestrator._finalize_node`. -/
def finalize_node (s : InvestigationState) : Except String InvestigationState :=
  let finish : JVal → String → InvestigationState := fun fd reason =>
    { s with final_decision := fd, decision_reason := some reason,
             status := "completed", steps := s.steps ++ ["Final Decision: " ++ pyStr fd] }
  let fiTruthy := match s.fraud_investigation with | some d => !d.isEmpty | none => false
  let raTruthy := match s.risk_analysis with | some d => !d.isEmpty | none => false
  if fiTruthy then
    let fi := s.fraud_investigation.getD []
    let fd := dgetD fi "recommendation" (.str "REVIEW")
    match build_decision_reason fd s.risk_analysis s.fraud_investigation s.compliance_check with
    | .error e => .error e
    | .ok reason => .ok (finish fd reason)
  else if raTruthy = true ∧
      (jvalAsNum (dgetD (s.risk_analysis.getD []) "risk_score" (.num 0))).getD 0 ≤ 400000 then
    match pyPctJ (dgetD (s.risk_analysis.getD []) "risk_score" (.num 0)) with
    | .error e => .error e
    | .ok pct =>
      .ok (finish (.str "APPROVE")
        ("Approved: Risk score " ++ pct ++
         " below threshold. No suspicious patterns detected. Standard transaction."))
  else
    .ok (finish (.str "REVIEW") "Manual review required due to incomplete analysis.")

/-- The initial state `investigate_async` hands to `graph.invoke` (minus the
unmodelled wall-clock timestamp; the dict carries no `decision_reason` key,
hence `none`). -/
def initial_state (t : Transaction) : InvestigationState :=
  { transaction := t, transaction_id := t.transaction_id, steps := [],
    risk_analysis := none, fraud_investigation := none, compliance_check := none,
    final_decision := .str "", decision_reason := none, status := "pending",
    error := none }

/-- The compiled graph up to (excluding) the finalize node: entry point
`analyze_risk`, one conditional edge on `_should_investigate`, then the
linear `investigate_fraud → check_compliance` chain. -/
def run_stages (loads : String → Except String JVal)
    (r1 r2 r3 : Except String String) (t : Transaction) :
    InvestigationState × List WfEvent :=
  let p1 := risk_analysis_node loads r1 (initial_state t)
  if should_investigate p1.1.risk_analysis = "investigate" then
    let p2 := fraud_investigation_node loads r2 p1.1
    let p3 := compliance_check_node loads r3 p2.1
    (p3.1, p1.2 ++ p2.2 ++ p3.2)
  else p1

/-- The result dict `investigate_async` assembles from the final graph
state. -/
def state_to_run (s : InvestigationState) : WorkflowRun :=
  { transaction_id := s.transaction_id, steps := s.steps,
    risk_analysis := s.risk_analysis, fraud_investigation := s.fraud_investigation,
    compliance_check := s.compliance_check, final_decision := s.final_decision,
    decision_reason := s.decision_reason.getD "", status := s.status }

/-- Embeds `FraudInvestigationOrchestrator.investigate` (the synchronous wrapper of
`investigate_async`): the run outcome together with the emitted event trace.
`r1`, `r2`, `r3` are the outcomes of the (at most three) external capability
calls, in stage order.  An exception escaping a node without a handler (only
possible in finalize) propagates to the caller, in which case no terminal
event is emitted. -/
def investigate (loads : String → Except String JVal)
    (r1 r2 r3 : Except String String) (t : Transaction) :
    Except String WorkflowRun × List WfEvent :=
  let startEv := WfEvent.investigation_start t.transaction_id
  let p := run_stages loads r1 r2 r3 t
  match finalize_node p.1 with
  | .ok s2 =>
    let run := state_to_run s2
    (.ok run, startEv :: p.2 ++ [WfEvent.investigation_complete run])
  | .error e => (.error e, startEv :: p.2)

/-- Stage position of an event: the strict order the spec asserts.  The
workflow only emits the three agent names matched here. -/
def eventRank : WfEvent → ℕ
  | .investigation_start _ => 0
  | .agent_thinking a _ =>
    if a = "Risk Analyst" then 1 else if a = "Fraud Investigator" then 3 else 5
  | .agent_result a _ =>
    if a = "Risk Analyst" then 2 else if a = "Fraud Investigator" then 4 else 6
  | .investigation_complete _ => 7

def isCompleteEv : WfEvent → Bool
  | .investigation_complete _ => true
  | _ => false

def isInvestigatorOrReviewerEv (e : WfEvent) : Bool :=
  3 ≤ eventRank e && eventRank e ≤ 6

/-- The trace's stage positions strictly increase — the "strict stage
order" of the spec, phrased executably. -/
def ranksStrictlyIncrease : List ℕ → Bool
  | [] => true
  | [_] => true
  | a :: b :: rest => decide (a < b) && ranksStrictlyIncrease (b :: rest)

/-- Stage position of a step-log entry.  Every entry a stage appends starts
with that stage's fixed prefix ("Risk Analyst: ...", "Fraud Investigator:
..." — also its error entry "Fraud Investigator: Error - ...",
"Compliance Officer: ...", "Final Decision: ..."), so the prefix identifies
the appending stage even though the entry tails carry capability-controlled
text. -/
def stepRank (s : String) : ℕ :=
  if strStartsWith s "Risk Analyst: " then 1
  else if strStartsWith s "Fraud Investigator: " then 2
  else if strStartsWith s "Compliance Officer: " then 3
  else if strStartsWith s "Final Decision: " then 4
  else 0

/-! ## Concrete fixtures used by witnesses and counterexamples -/

/-- A `json.loads` on which every text fails to parse. -/
def loadsNone : String → Except String JVal :=
  fun _ => .error "Expecting value: line 1 column 1 (char 0)"

/-- Scenario-B-like low-risk transaction (amount $50, daytime, benign
location/merchant, low velocity): heuristic score 0. -/
def txLow : Transaction :=
  { transaction_id := "TX-LOW-001", timestamp := "2026-01-11T14:00:00Z",
    from_account := "ACC-100", to_account := "ACC-200", amount := 50000000,
    merchant_category := "Groceries", device_id := "DEV-001",
    location := "Home", hour := 14, velocity := 1 }

/-- Large amount at an unusual hour, nothing else triggered: heuristic
score exactly 0.40 (0.20 + 0.20). -/
def txBoundary : Transaction :=
  { transaction_id := "TX-MED-001", timestamp := "2026-01-11T23:10:00Z",
    from_account := "ACC-100", to_account := "ACC-200", amount := 6000000000,
    merchant_category := "Groceries", device_id := "DEV-001",
    location := "Home", hour := 23, velocity := 1 }

/-- Large amount, unusual hour and suspicious location: heuristic score
0.65 > 0.40, so the run escalates. -/
def txHigh : Transaction :=
  { transaction_id := "TX-HI-001", timestamp := "2026-01-11T02:00:00Z",
    from_account := "ACC-300", to_account := "ACC-400", amount := 6000000000,
    merchant_category := "Groceries", device_id := "DEV-002",
    location := "VPN", hour := 2, velocity := 1 }

/-- Scenario-C transaction: amount $12,000. -/
def txCtr : Transaction :=
  { transaction_id := "TX-CTR-001", timestamp := "2026-01-11T10:00:00Z",
    from_account := "ACC-500", to_account := "ACC-600", amount := 12000000000,
    merchant_category := "Electronics", device_id := "DEV-003",
    location := "New York", hour := 10, velocity := 2 }

/-- A `json.loads` that parses exactly one text, to an object whose
`recommendation` is the empty string. -/
def loads5 : String → Except String JVal := fun s =>
  if s = "R2" then .ok (.obj [("recommendation", .str "")])
  else .error "Expecting value: line 1 column 1 (char 0)"

/-- A `json.loads` that parses exactly one text, to an object that forces
ctr_required=true. -/
def loads7 : String → Except String JVal := fun s =>
  if s = "A" then .ok (.obj [("ctr_required", .bool true)])
  else .error "Expecting value: line 1 column 1 (char 0)"

/-- A `json.loads` that parses exactly one text, to a DECLINE finding whose
fraud_indicators list holds a non-string element. -/
def loads9 : String → Except String JVal := fun s =>
  if s = "R2" then
    .ok (.obj [("recommendation", .str "DECLINE"),
               ("fraud_indicators", .arr [.num 1000000])])
  else .error "Expecting value: line 1 column 1 (char 0)"

/-- A `json.loads` that parses exactly the fence-extracted payload of
`fencedResponse`. -/
def loadsFence : String → Except String JVal := fun s =>
  if s = "INNER" then .ok (.obj [("recommendation", .str "APPROVE")])
  else .error "Expecting value: line 1 column 1 (char 0)"

/-- A response whose JSON is wrapped in a markdown code fence. -/
def fencedResponse : String := "Sure!```json\nINNER\n``` done"


/-! ## Statement accessors (for stating results about run outcomes compactly;
these are not source functions) -/

def okDict : Except String Dict → Dict
  | .ok d => d
  | .error _ => []

def runStatus : Except String WorkflowRun → String
  | .ok r => r.status
  | .error _ => "exception escaped the workflow"

def runDecision : Except String WorkflowRun → JVal
  | .ok r => r.final_decision
  | .error _ => .null

def runFI : Except String WorkflowRun → Option Dict
  | .ok r => r.fraud_investigation
  | .error _ => none

def runSteps : Except String WorkflowRun → List String
  | .ok r => r.steps
  | .error _ => []

def okRA : Except String WorkflowRun → Dict
  | .ok r => r.risk_analysis.getD []
  | .error _ => []

def okFI : Except String WorkflowRun → Dict
  | .ok r => r.fraud_investigation.getD []
  | .error _ => []

/-! ## Dictionary lemmas -/

theorem dget_dset (d : Dict) (k : String) (v : JVal) (q : String) :
    dget (dset d k v) q = if q = k then some v else dget d q := by
  induction d with
  | nil =>
    by_cases h : q = k
    · subst h; simp [dset, dget]
    · simp [dset, dget, h, Ne.symm h]
  | cons hd tl ih =>
    obtain ⟨a, w⟩ := hd
    by_cases hak : a = k
    · subst hak
      by_cases hq : q = a
      · subst hq; simp [dset, dget]
      · simp [dset, dget, hq, Ne.symm hq]
    · by_cases hq : q = a
      · subst hq
        simp [dset, dget, hak, Ne.symm hak]
      · simp [dset, dget, hak, Ne.symm hq, ih]

theorem dget_append (d1 d2 : Dict) (k : String) :
    dget (d1 ++ d2) k =
      match dget d1 k with
      | some v => some v
      | none => dget d2 k := by
  induction d1 with
  | nil => simp [dget]
  | cons hd tl ih =>
    obtain ⟨a, w⟩ := hd
    by_cases h : a = k
    · simp [dget, h]
    · simp [dget, h, ih]

theorem dget_dsetd (d : Dict) (k : String) (v : JVal) (q : String) :
    dget (dsetd d k v) q =
      if q = k then some (dgetD d k v) else dget d q := by
  unfold dsetd dgetD
  cases hk : dget d k with
  | some w =>
    by_cases h : q = k
    · subst h; simp [hk]
    · simp [h]
  | none =>
    rw [dget_append]
    by_cases h : q = k
    · subst h; simp [hk, dget]
    · cases hq : dget d q with
      | some u => simp [hq, h]
      | none => simp [hq, h, dget, Ne.symm h]

theorem dset_not_empty (d : Dict) (k : String) (v : JVal) :
    (dset d k v).isEmpty = false := by
  cases d with
  | nil => simp [dset]
  | cons hd tl =>
    obtain ⟨a, w⟩ := hd
    by_cases h : a = k <;> simp [dset, h]

/-! ## Structural facts about the assessor and the workflow nodes -/

theorem analyze_risk_ok_shape (loads : String → Except String JVal)
    (resp : Except String String) (t : Transaction) (ra : Dict)
    (h : analyze_risk loads resp t = .ok ra) :
    dget ra "risk_score" = some (.num (calculate_heuristic_risk t).1)
    ∧ (dget ra "risk_level").isSome = true
    ∧ ra.isEmpty = false := by
  unfold analyze_risk at h
  cases resp with
  | error e => simp at h
  | ok response =>
    dsimp only at h
    cases hp : parse_json_response loads response with
    | obj d0 =>
      rw [hp] at h
      simp only at h
      injection h with h
      subst h
      refine ⟨?_, ?_, ?_⟩
      · simp [dget_dset, dget_dsetd]
      · simp [dget_dset, dget_dsetd]
      · exact dset_not_empty ..
    | null => rw [hp] at h; simp at h
    | bool b => rw [hp] at h; simp at h
    | num m => rw [hp] at h; simp at h
    | str s => rw [hp] at h; simp at h
    | arr xs => rw [hp] at h; simp at h

theorem should_investigate_eval (ra : Dict) (sc : ℤ)
    (h1 : dget ra "risk_score" = some (.num sc)) (h2 : ra.isEmpty = false) :
    should_investigate (some ra) =
      if 400000 < sc then "investigate" else "approve" := by
  unfold should_investigate
  simp [dgetD, h1, h2, jvalAsNum]

theorem risk_try_ok (loads : String → Except String JVal)
    (resp : Except String String) (s : InvestigationState) (ra : Dict) (sc : ℤ)
    (h : analyze_risk loads resp s.transaction = .ok ra)
    (h1 : dget ra "risk_score" = some (.num sc))
    (h2 : (dget ra "risk_level").isSome = true) :
    ∃ msg rr,
      risk_analysis_try loads resp s =
        .ok (dset (dset ra "routing_reason" (.str rr)) "escalated"
              (.bool (should_investigate (some ra) == "investigate")), msg) := by
  obtain ⟨rl, hrl⟩ := Option.isSome_iff_exists.mp h2
  have hd : dgetD ra "risk_score" (JVal.num 0) = JVal.num sc := by
    simp [dgetD, h1]
  unfold risk_analysis_try
  rw [h]
  dsimp only
  unfold get_routing_reason
  rw [hd]
  dsimp only [pyPctJ]
  have hrl' : dget (dset (dset ra "routing_reason"
      (.str (if should_investigate (some ra) = "approve" then
        "Risk score " ++ fmtPct sc ++
          " is below 40% threshold. " ++ pyStr (dgetD ra "risk_level" (.str "Unknown")) ++
          " risk level - no further investigation needed. Transaction approved by Risk Analyst."
      else
        "Risk score " ++ fmtPct sc ++
          " exceeds 40% threshold. " ++ pyStr (dgetD ra "risk_level" (.str "Unknown")) ++
          " risk level detected. Escalating to Fraud Investigator for detailed analysis.")))
      "escalated" (.bool (should_investigate (some ra) == "investigate")))
      "risk_level" = some rl := by
    simp [dget_dset, hrl]
  have hrs' : dget (dset (dset ra "routing_reason"
      (.str (if should_investigate (some ra) = "approve" then
        "Risk score " ++ fmtPct sc ++
          " is below 40% threshold. " ++ pyStr (dgetD ra "risk_level" (.str "Unknown")) ++
          " risk level - no further investigation needed. Transaction approved by Risk Analyst."
      else
        "Risk score " ++ fmtPct sc ++
          " exceeds 40% threshold. " ++ pyStr (dgetD ra "risk_level" (.str "Unknown")) ++
          " risk level detected. Escalating to Fraud Investigator for detailed analysis.")))
      "escalated" (.bool (should_investigate (some ra) == "investigate")))
      "risk_score" = some (JVal.num sc) := by
    simp [dget_dset, h1]
  dsimp only [pyIndex]
  rw [hrl', hrs']
  dsimp only [pyFmt3J]
  exact ⟨_, _, rfl⟩

theorem risk_node_ok (loads : String → Except String JVal)
    (resp : Except String String) (s : InvestigationState) (ra : Dict)
    (h : analyze_risk loads resp s.transaction = .ok ra) :
    ∃ ra' msg,
      risk_analysis_node loads resp s =
        ({ s with risk_analysis := some ra', steps := s.steps ++ [msg] },
         [WfEvent.agent_thinking "Risk Analyst" "Analyzing transaction risk...",
          WfEvent.agent_result "Risk Analyst" ra'])
      ∧ dget ra' "risk_score" = some (.num (calculate_heuristic_risk s.transaction).1)
      ∧ ra'.isEmpty = false := by
  obtain ⟨h1, h2, h3⟩ := analyze_risk_ok_shape loads resp s.transaction ra h
  obtain ⟨msg, rr, htry⟩ :=
    risk_try_ok loads resp s ra (calculate_heuristic_risk s.transaction).1 h h1 h2
  refine ⟨dset (dset ra "routing_reason" (.str rr)) "escalated"
      (.bool (should_investigate (some ra) == "investigate")), msg, ?_, ?_, ?_⟩
  · unfold risk_analysis_node
    rw [htry]
  · simp [dget_dset, h1]
  · exact dset_not_empty ..

theorem risk_node_error (loads : String → Except String JVal)
    (resp : Except String String) (s : InvestigationState) (e : String)
    (htry : risk_analysis_try loads resp s = .error e) :
    risk_analysis_node loads resp s =
      ({ s with error := some e, status := "error" },
       [WfEvent.agent_thinking "Risk Analyst" "Analyzing transaction risk..."]) := by
  unfold risk_analysis_node
  rw [htry]

/-- Both branches of the investigator node record a finding; neither touches
the other optional fields. -/
theorem fraud_node_shape (loads : String → Except String JVal)
    (resp : Except String String) (s : InvestigationState) :
    ((fraud_investigation_node loads resp s).1.fraud_investigation.isSome = true)
    ∧ ((fraud_investigation_node loads resp s).1.risk_analysis = s.risk_analysis)
    ∧ ((fraud_investigation_node loads resp s).1.compliance_check = s.compliance_check)
    ∧ ((fraud_investigation_node loads resp s).1.transaction = s.transaction)
    ∧ ((fraud_investigation_node loads resp s).1.status = s.status)
    ∧ ((fraud_investigation_node loads resp s).2 =
        [WfEvent.agent_thinking "Fraud Investigator" "Investigating suspicious activity..."]
        ∨ ∃ fi, (fraud_investigation_node loads resp s).2 =
            [WfEvent.agent_thinking "Fraud Investigator" "Investigating suspicious activity...",
             WfEvent.agent_result "Fraud Investigator" fi]) := by
  unfold fraud_investigation_node
  cases fraud_investigation_try loads resp s with
  | ok x => exact ⟨rfl, rfl, rfl, rfl, rfl, Or.inr ⟨x.1, rfl⟩⟩
  | error e => exact ⟨rfl, rfl, rfl, rfl, rfl, Or.inl rfl⟩

/-- Both branches of the reviewer node record an outcome; neither touches
the other optional fields. -/
theorem compliance_node_shape (loads : String → Except String JVal)
    (resp : Except String String) (s : InvestigationState) :
    ((compliance_check_node loads resp s).1.compliance_check.isSome = true)
    ∧ ((compliance_check_node loads resp s).1.risk_analysis = s.risk_analysis)
    ∧ ((compliance_check_node loads resp s).1.fraud_investigation = s.fraud_investigation)
    ∧ ((compliance_check_node loads resp s).1.transaction = s.transaction)
    ∧ ((compliance_check_node loads resp s).1.status = s.status)
    ∧ ((compliance_check_node loads resp s).2 =
        [WfEvent.agent_thinking "Compliance Officer" "Checking regulatory requirements..."]
        ∨ ∃ cc, (compliance_check_node loads resp s).2 =
            [WfEvent.agent_thinking "Compliance Officer" "Checking regulatory requirements...",
             WfEvent.agent_result "Compliance Officer" cc]) := by
  unfold compliance_check_node
  cases compliance_check_try loads resp s with
  | ok x => exact ⟨rfl, rfl, rfl, rfl, rfl, Or.inr ⟨x.1, rfl⟩⟩
  | error e => exact ⟨rfl, rfl, rfl, rfl, rfl, Or.inl rfl⟩

/-- Finalizing only writes the decision fields: the three stage outputs are
returned unchanged and the status becomes completed. -/
theorem finalize_fields (s s' : InvestigationState)
    (h : finalize_node s = .ok s') :
    s'.risk_analysis = s.risk_analysis
    ∧ s'.fraud_investigation = s.fraud_investigation
    ∧ s'.compliance_check = s.compliance_check
    ∧ s'.status = "completed"
    ∧ s'.transaction_id = s.transaction_id := by
  unfold finalize_node at h
  dsimp only at h
  split at h
  · split at h
    · simp at h
    · injection h with h
      subst h
      exact ⟨rfl, rfl, rfl, rfl, rfl⟩
  · split at h
    · split at h
      · simp at h
      · injection h with h
        subst h
        exact ⟨rfl, rfl, rfl, rfl, rfl⟩
    · injection h with h
      subst h
      exact ⟨rfl, rfl, rfl, rfl, rfl⟩

/-- The decision written by Finalizing: either one of the two built-in
constants, or verbatim the recommendation field of the recorded finding. -/
theorem finalize_decision (s s' : InvestigationState)
    (h : finalize_node s = .ok s') :
    s'.final_decision = .str "APPROVE" ∨ s'.final_decision = .str "REVIEW"
    ∨ ∃ fi, s.fraud_investigation = some fi
        ∧ s'.final_decision = dgetD fi "recommendation" (.str "REVIEW") := by
  unfold finalize_node at h
  dsimp only at h
  split at h
  next hfi =>
    split at h
    · simp at h
    · injection h with h
      subst h
      refine Or.inr (Or.inr ?_)
      cases hval : s.fraud_investigation with
      | none => rw [hval] at hfi; simp at hfi
      | some fi => exact ⟨fi, rfl, rfl⟩
  next =>
    split at h
    · split at h
      · simp at h
      · injection h with h
        subst h
        exact Or.inl rfl
    · injection h with h
      subst h
      exact Or.inr (Or.inl rfl)

theorem dget_some_not_empty (d : Dict) (k : String) (v : JVal)
    (h : dget d k = some v) : d.isEmpty = false := by
  cases d with
  | nil => simp [dget] at h
  | cons hd tl => simp

/-- Finalizing cannot raise when no finding was recorded, provided any
recorded assessment carries a numeric score (which `analyze_risk` always
stores). -/
theorem finalize_ok_no_fi (s : InvestigationState)
    (hfi : s.fraud_investigation = none)
    (hra : s.risk_analysis = none
      ∨ ∃ ra sc, s.risk_analysis = some ra ∧ dget ra "risk_score" = some (.num sc)) :
    exceptIsOk (finalize_node s) = true := by
  unfold finalize_node
  rw [hfi]
  dsimp only
  rcases hra with hra | ⟨ra, sc, hra, hsc⟩
  · rw [hra]
    simp [exceptIsOk]
  · rw [hra]
    have hne := dget_some_not_empty ra "risk_score" _ hsc
    have hd : dgetD ra "risk_score" (JVal.num 0) = JVal.num sc := by simp [dgetD, hsc]
    simp only [hne, Option.getD_some, hd, jvalAsNum]
    by_cases hle : sc ≤ 400000
    · simp [hle, hd, pyPctJ, exceptIsOk]
    · simp [hle, exceptIsOk]

/-- Finalizing cannot raise when the recorded finding is the investigator
node's error fallback. -/
theorem finalize_ok_fallback_fi (s : InvestigationState) (e : String)
    (hfi : s.fraud_investigation = some
      [("recommendation", .str "REVIEW"), ("fraud_likelihood", .str "Unknown"),
       ("explanation", .str ("Investigation error: " ++ e))])
    (hra : s.risk_analysis = none
      ∨ ∃ ra sc, s.risk_analysis = some ra ∧ dget ra "risk_score" = some (.num sc)) :
    exceptIsOk (finalize_node s) = true := by
  unfold finalize_node
  rw [hfi]
  dsimp only
  unfold build_decision_reason
  rcases hra with hra | ⟨ra, sc, hra, hsc⟩
  · rw [hra]
    dsimp only [pyPctJ, isStrEq, dgetD, dget]
    cases s.compliance_check with
    | none => simp [exceptIsOk]
    | some cc => by_cases hcc : cc.isEmpty <;> simp [hcc, exceptIsOk]
  · rw [hra]
    have hne := dget_some_not_empty ra "risk_score" _ hsc
    have hd : dgetD ra "risk_score" (JVal.num 0) = JVal.num sc := by simp [dgetD, hsc]
    simp only [hne, Bool.false_eq_true, if_false, hd]
    dsimp only [pyPctJ, isStrEq, dgetD, dget]
    cases s.compliance_check with
    | none => simp [exceptIsOk]
    | some cc => by_cases hcc : cc.isEmpty <;> simp [hcc, exceptIsOk]

theorem dAppendAt_preserves (d : Dict) (k : String) (x : JVal) (d' : Dict)
    (h : dAppendAt d k x = .ok d') (q : String) (hq : q ≠ k) :
    dget d' q = dget d q := by
  unfold dAppendAt at h
  cases hk : dget d k with
  | none =>
    rw [hk] at h
    injection h with h
    subst h
    simp [dget_dset, hq]
  | some v =>
    rw [hk] at h
    cases v with
    | arr xs =>
      injection h with h
      subst h
      simp [dget_dset, hq]
    | null => simp at h
    | bool b => simp at h
    | num m => simp at h
    | str s => simp at h
    | obj fs => simp at h

theorem ctr_override_congr (t t' : Transaction) (d0 : Dict)
    (hA : t.amount = t'.amount) : ctr_override t d0 = ctr_override t' d0 := by
  unfold ctr_override
  rw [hA]

theorem ctr_override_sets (t : Transaction) (d0 d1 : Dict)
    (h : ctr_override t d0 = .ok d1) (h10 : 10000000000 < t.amount) :
    dget d1 "ctr_required" = some (.bool true) := by
  unfold ctr_override at h
  rw [if_pos h10] at h
  dsimp only at h
  cases hni : pyNotInJ "ctr_required"
      (dgetD (dset d0 "ctr_required" (.bool true)) "regulatory_actions" (.arr [])) with
  | error e => rw [hni] at h; simp at h
  | ok cond =>
    rw [hni] at h
    dsimp only at h
    by_cases hc : cond = true
    · rw [if_pos hc] at h
      rw [dAppendAt_preserves _ _ _ _ h "ctr_required" (by decide)]
      simp [dget_dset]
    · rw [if_neg hc] at h
      injection h with h
      subst h
      simp [dget_dset]

theorem compliance_finish_preserves_ctr (t : Transaction) (inv d1 d : Dict)
    (h : compliance_finish t inv d1 = .ok d)
    (hc : dget d1 "ctr_required" = some (.bool true)) :
    dget d "ctr_required" = some (.bool true) := by
  unfold compliance_finish at h
  dsimp only at h
  by_cases hs : (decide (t.amount > 5000000000) &&
      (isStrEq (dgetD inv "fraud_likelihood" (JVal.str "Low")) "Medium" ||
       isStrEq (dgetD inv "fraud_likelihood" (JVal.str "Low")) "High")) = true
  · rw [if_pos hs] at h
    split at h
    · simp at h
    · injection h with h
      subst h
      simp [dget_dset, dget_dsetd, dgetD, hc]
  · rw [if_neg hs] at h
    split at h
    · simp at h
    · injection h with h
      subst h
      simp [dget_dset, dget_dsetd, dgetD, hc]

theorem compliance_finish_sets_sar (t : Transaction) (inv d1 d : Dict)
    (h : compliance_finish t inv d1 = .ok d)
    (h5 : 5000000000 < t.amount)
    (hMH : (isStrEq (dgetD inv "fraud_likelihood" (.str "Low")) "Medium"
        || isStrEq (dgetD inv "fraud_likelihood" (.str "Low")) "High") = true) :
    dget d "sar_required" = some (.bool true) := by
  unfold compliance_finish at h
  dsimp only at h
  rw [if_pos (by simp [h5, hMH])] at h
  split at h
  · simp at h
  · injection h with h
    subst h
    simp [dget_dset, dget_dsetd, dgetD]

/-- The summary step can only raise from `len(...)` of fields of the result
dict itself, so whether it raises does not depend on the transaction or the
finding. -/
theorem gcs_isOk_congr (r : Dict) (t t' : Transaction) (inv inv' : Dict) :
    exceptIsOk (generate_compliance_summary r t inv) =
    exceptIsOk (generate_compliance_summary r t' inv') := by
  unfold generate_compliance_summary
  dsimp only
  cases pyLen (dgetD r "aml_violations" (.arr [])) with
  | error e =>
    cases pyLen (dgetD r "kyc_flags" (.arr [])) with
    | error e2 => rfl
    | ok kyc => rfl
  | ok aml =>
    cases pyLen (dgetD r "kyc_flags" (.arr [])) with
    | error e => rfl
    | ok kyc => rfl

theorem compliance_finish_flags_congr (t t' : Transaction) (inv inv' d1 d d' : Dict)
    (hA : t.amount = t'.amount)
    (hF : dgetD inv "fraud_likelihood" (.str "Low")
        = dgetD inv' "fraud_likelihood" (.str "Low"))
    (h : compliance_finish t inv d1 = .ok d)
    (h' : compliance_finish t' inv' d1 = .ok d') :
    dget d "ctr_required" = dget d' "ctr_required"
    ∧ dget d "sar_required" = dget d' "sar_required" := by
  unfold compliance_finish at h h'
  dsimp only at h h'
  rw [← hA, ← hF] at h'
  by_cases hs : (decide (t.amount > 5000000000) &&
      (isStrEq (dgetD inv "fraud_likelihood" (JVal.str "Low")) "Medium" ||
       isStrEq (dgetD inv "fraud_likelihood" (JVal.str "Low")) "High")) = true
  · rw [if_pos hs] at h h'
    cases hg : generate_compliance_summary
        (dset (dsetd (dsetd (dsetd (dsetd (dsetd (dsetd (dsetd (dsetd
          (dsetd (dset d1 "sar_required" (JVal.bool true)) "sar_reason"
            (JVal.str ("Suspicious transaction over $5,000 with " ++
              pyStr (dgetD inv "fraud_likelihood" (JVal.str "Low")) ++ " fraud likelihood")))
          "sar_required" (JVal.bool false)) "ctr_required" (JVal.bool false))
          "sar_reason" (JVal.str "")) "aml_violations" (JVal.arr []))
          "kyc_flags" (JVal.arr [])) "regulatory_actions" (JVal.arr []))
          "compliance_notes" (JVal.str "")) "risk_rating" (JVal.str "Low"))
          "agent" (JVal.str "Compliance Officer")) t inv with
    | error e =>
      rw [hg] at h
      simp at h
    | ok s1 =>
      rw [hg] at h
      have hok' := gcs_isOk_congr
        (dset (dsetd (dsetd (dsetd (dsetd (dsetd (dsetd (dsetd (dsetd
          (dsetd (dset d1 "sar_required" (JVal.bool true)) "sar_reason"
            (JVal.str ("Suspicious transaction over $5,000 with " ++
              pyStr (dgetD inv "fraud_likelihood" (JVal.str "Low")) ++ " fraud likelihood")))
          "sar_required" (JVal.bool false)) "ctr_required" (JVal.bool false))
          "sar_reason" (JVal.str "")) "aml_violations" (JVal.arr []))
          "kyc_flags" (JVal.arr [])) "regulatory_actions" (JVal.arr []))
          "compliance_notes" (JVal.str "")) "risk_rating" (JVal.str "Low"))
          "agent" (JVal.str "Compliance Officer")) t t' inv inv'
      rw [hg] at hok'
      cases hg' : generate_compliance_summary
        (dset (dsetd (dsetd (dsetd (dsetd (dsetd (dsetd (dsetd (dsetd
          (dsetd (dset d1 "sar_required" (JVal.bool true)) "sar_reason"
            (JVal.str ("Suspicious transaction over $5,000 with " ++
              pyStr (dgetD inv "fraud_likelihood" (JVal.str "Low")) ++ " fraud likelihood")))
          "sar_required" (JVal.bool false)) "ctr_required" (JVal.bool false))
          "sar_reason" (JVal.str "")) "aml_violations" (JVal.arr []))
          "kyc_flags" (JVal.arr [])) "regulatory_actions" (JVal.arr []))
          "compliance_notes" (JVal.str "")) "risk_rating" (JVal.str "Low"))
          "agent" (JVal.str "Compliance Officer")) t' inv' with
      | error e =>
        rw [hg'] at hok'
        simp [exceptIsOk] at hok'
      | ok s2 =>
        rw [hg'] at h'
        injection h with h
        injection h' with h'
        subst h
        subst h'
        constructor <;> simp [dget_dset]
  · rw [if_neg hs] at h h'
    cases hg : generate_compliance_summary
        (dset (dsetd (dsetd (dsetd (dsetd (dsetd (dsetd (dsetd (dsetd d1
          "sar_required" (JVal.bool false)) "ctr_required" (JVal.bool false))
          "sar_reason" (JVal.str "")) "aml_violations" (JVal.arr []))
          "kyc_flags" (JVal.arr [])) "regulatory_actions" (JVal.arr []))
          "compliance_notes" (JVal.str "")) "risk_rating" (JVal.str "Low"))
          "agent" (JVal.str "Compliance Officer")) t inv with
    | error e =>
      rw [hg] at h
      simp at h
    | ok s1 =>
      rw [hg] at h
      have hok' := gcs_isOk_congr
        (dset (dsetd (dsetd (dsetd (dsetd (dsetd (dsetd (dsetd (dsetd d1
          "sar_required" (JVal.bool false)) "ctr_required" (JVal.bool false))
          "sar_reason" (JVal.str "")) "aml_violations" (JVal.arr []))
          "kyc_flags" (JVal.arr [])) "regulatory_actions" (JVal.arr []))
          "compliance_notes" (JVal.str "")) "risk_rating" (JVal.str "Low"))
          "agent" (JVal.str "Compliance Officer")) t t' inv inv'
      rw [hg] at hok'
      cases hg' : generate_compliance_summary
        (dset (dsetd (dsetd (dsetd (dsetd (dsetd (dsetd (dsetd (dsetd d1
          "sar_required" (JVal.bool false)) "ctr_required" (JVal.bool false))
          "sar_reason" (JVal.str "")) "aml_violations" (JVal.arr []))
          "kyc_flags" (JVal.arr [])) "regulatory_actions" (JVal.arr []))
          "compliance_notes" (JVal.str "")) "risk_rating" (JVal.str "Low"))
          "agent" (JVal.str "Compliance Officer")) t' inv' with
      | error e =>
        rw [hg'] at hok'
        simp [exceptIsOk] at hok'
      | ok s2 =>
        rw [hg'] at h'
        injection h with h
        injection h' with h'
        subst h
        subst h'
        constructor <;> simp [dget_dset]

/-- C4: for every transaction and every reasoning-capability output, the
compliance review's returned outcome has ctr_required=true whenever the
amount exceeds $10,000, and sar_required=true whenever the amount exceeds
$5,000 and the finding's fraud likelihood is Medium or High.  The response
text and the parse behaviour are universally quantified, so this covers
every capability output on which the review returns at all. -/
theorem c4_statutory_overrides (loads : String → Except String JVal)
    (resp : Except String String) (t : Transaction) (inv d : Dict)
    (hok : check_compliance loads resp t inv = .ok d) :
    (10000000000 < t.amount → dget d "ctr_required" = some (.bool true))
    ∧ (5000000000 < t.amount →
       (isStrEq (dgetD inv "fraud_likelihood" (.str "Low")) "Medium"
        || isStrEq (dgetD inv "fraud_likelihood" (.str "Low")) "High") = true →
       dget d "sar_required" = some (.bool true)) := by
  unfold check_compliance at hok
  cases resp with
  | error e => simp at hok
  | ok response =>
    dsimp only at hok
    cases hp : parse_json_response loads response with
    | obj d0 =>
      rw [hp] at hok
      dsimp only at hok
      cases hco : ctr_override t d0 with
      | error e => rw [hco] at hok; simp at hok
      | ok d1 =>
        rw [hco] at hok
        dsimp only at hok
        constructor
        · intro h10
          exact compliance_finish_preserves_ctr t inv d1 d hok
            (ctr_override_sets t d0 d1 hco h10)
        · intro h5 hMH
          exact compliance_finish_sets_sar t inv d1 d hok h5 hMH
    | null => rw [hp] at hok; simp at hok
    | bool b => rw [hp] at hok; simp at hok
    | num m => rw [hp] at hok; simp at hok
    | str s => rw [hp] at hok; simp at hok
    | arr xs => rw [hp] at hok; simp at hok

/-- Witness for C4: Scenario C (amount $12,000, fraud likelihood High)
yields ctr_required=true and sar_required=true. -/
theorem c4_witness :
    dget (okDict (check_compliance loadsNone (.ok "junk") txCtr
        [("fraud_likelihood", JVal.str "High")])) "ctr_required" = some (.bool true)
    ∧ dget (okDict (check_compliance loadsNone (.ok "junk") txCtr
        [("fraud_likelihood", JVal.str "High")])) "sar_required" = some (.bool true) := by
  have h := c4_statutory_overrides loadsNone (.ok "junk") txCtr
    [("fraud_likelihood", JVal.str "High")] _ rfl
  exact ⟨h.1 (by decide), h.2 (by decide) (by decide)⟩

/-- C7 counterexample: with the transaction and finding fixed (amount $50,
likelihood Low — identical in both calls), two different capability
responses produce different ctr_required flags, so the flags are not a
function of the amount and the fraud likelihood alone. -/
theorem c7_counterexample :
    dget (okDict (check_compliance loads7 (.ok "A") txLow
        [("fraud_likelihood", JVal.str "Low")])) "ctr_required" = some (.bool true)
    ∧ dget (okDict (check_compliance loads7 (.ok "B") txLow
        [("fraud_likelihood", JVal.str "Low")])) "ctr_required" = some (.bool false)
    ∧ some (JVal.bool true) ≠ some (JVal.bool false) := by
  refine ⟨rfl, rfl, ?_⟩
  simp

/-- C7 (amended): the CTR/SAR flags are a deterministic function of the
transaction amount, the finding's fraud likelihood, and the capability's
response: two runs that share those three inputs (and the parse behaviour)
return identical flags whenever both return. -/
theorem c7_flags_deterministic (loads : String → Except String JVal)
    (resp : Except String String) (t t' : Transaction) (inv inv' d d' : Dict)
    (hA : t.amount = t'.amount)
    (hF : dgetD inv "fraud_likelihood" (.str "Low")
        = dgetD inv' "fraud_likelihood" (.str "Low"))
    (h : check_compliance loads resp t inv = .ok d)
    (h' : check_compliance loads resp t' inv' = .ok d') :
    dget d "ctr_required" = dget d' "ctr_required"
    ∧ dget d "sar_required" = dget d' "sar_required" := by
  unfold check_compliance at h h'
  cases resp with
  | error e => simp at h
  | ok response =>
    dsimp only at h h'
    cases hp : parse_json_response loads response with
    | obj d0 =>
      rw [hp] at h h'
      dsimp only at h h'
      rw [← ctr_override_congr t t' d0 hA] at h'
      cases hco : ctr_override t d0 with
      | error e => rw [hco] at h; simp at h
      | ok d1 =>
        rw [hco] at h h'
        dsimp only at h h'
        exact compliance_finish_flags_congr t t' inv inv' d1 d d' hA hF h h'
    | null => rw [hp] at h; simp at h
    | bool b => rw [hp] at h; simp at h
    | num m => rw [hp] at h; simp at h
    | str s => rw [hp] at h; simp at h
    | arr xs => rw [hp] at h; simp at h

/-- Witness for the amended C7: two findings that agree on the fraud
likelihood but differ elsewhere give identical flags on the same
transaction and response. -/
theorem c7_witness :
    dget (okDict (check_compliance loadsNone (.ok "junk") txCtr
        [("fraud_likelihood", JVal.str "Low")])) "ctr_required"
      = dget (okDict (check_compliance loadsNone (.ok "junk") txCtr
        [("fraud_likelihood", JVal.str "Low"), ("confidence", JVal.num 900000)]))
        "ctr_required" := by
  have h := c7_flags_deterministic loadsNone (.ok "junk") txCtr txCtr
    [("fraud_likelihood", JVal.str "Low")]
    [("fraud_likelihood", JVal.str "Low"), ("confidence", JVal.num 900000)]
    _ _ rfl rfl rfl rfl
  exact h.1

/-- C1 counterexample: with a concrete transaction and a capability call
that raises during Assessing, the workflow does reach Finalizing (the step
log records a final decision) and the returned run has status
"completed", not "error". -/
theorem c1_counterexample :
    (investigate loadsNone (.error "boom") (.ok "r2") (.ok "r3") txLow).1 =
      .ok { transaction_id := "TX-LOW-001", steps := ["Final Decision: REVIEW"],
            risk_analysis := none, fraud_investigation := none,
            compliance_check := none, final_decision := .str "REVIEW",
            decision_reason := "Manual review required due to incomplete analysis.",
            status := "completed" }
    ∧ runStatus (investigate loadsNone (.error "boom") (.ok "r2") (.ok "r3") txLow).1
        ≠ "error" := by
  refine ⟨rfl, ?_⟩
  intro h
  have hc : runStatus (investigate loadsNone (.error "boom") (.ok "r2")
      (.ok "r3") txLow).1 = "completed" := rfl
  rw [hc] at h
  exact absurd h (by decide)

/-- C1 (amended): when the Assessing stage's orchestration catches an
exception, the node records status="error" and the message in the state's
error field, but the conditional edge still routes the run (with no
assessment recorded) to Finalizing, which overwrites the status: the
returned run has status="completed", decision REVIEW with the
incomplete-analysis rationale, no stage outputs, and the state's error
message is dropped from the returned run; a terminal investigation_complete
event is still emitted. -/
theorem c1_assessing_error_behaviour (loads : String → Except String JVal)
    (e : String) (r2 r3 : Except String String) (t : Transaction) :
    (risk_analysis_node loads (.error e) (initial_state t)).1.status = "error"
    ∧ (risk_analysis_node loads (.error e) (initial_state t)).1.error = some e
    ∧ (investigate loads (.error e) r2 r3 t).1 =
        .ok { transaction_id := t.transaction_id, steps := ["Final Decision: REVIEW"],
              risk_analysis := none, fraud_investigation := none,
              compliance_check := none, final_decision := .str "REVIEW",
              decision_reason := "Manual review required due to incomplete analysis.",
              status := "completed" }
    ∧ (investigate loads (.error e) r2 r3 t).2 =
        [WfEvent.investigation_start t.transaction_id,
         WfEvent.agent_thinking "Risk Analyst" "Analyzing transaction risk...",
         WfEvent.investigation_complete
           { transaction_id := t.transaction_id, steps := ["Final Decision: REVIEW"],
             risk_analysis := none, fraud_investigation := none,
             compliance_check := none, final_decision := .str "REVIEW",
             decision_reason := "Manual review required due to incomplete analysis.",
             status := "completed" }] :=
  ⟨rfl, rfl, rfl, rfl⟩

/-- C2 counterexample: when the capability raises, `analyze_risk` itself
raises (it does not return a heuristic fallback assessment), and the run
that completes records no risk assessment at all — its populated decision
comes from the incomplete-analysis REVIEW path, not from the heuristic
scorer. -/
theorem c2_counterexample :
    analyze_risk loadsNone (.error "boom") txLow = .error "boom"
    ∧ (investigate loadsNone (.error "a") (.error "b") (.error "c") txLow).1 =
        .ok { transaction_id := "TX-LOW-001", steps := ["Final Decision: REVIEW"],
              risk_analysis := none, fraud_investigation := none,
              compliance_check := none, final_decision := .str "REVIEW",
              decision_reason := "Manual review required due to incomplete analysis.",
              status := "completed" } :=
  ⟨rfl, rfl⟩

/-- C2 (amended): if the external reasoning capability raises on every
call, the run still completes with status="completed" and never "error" —
but the Case Assessor's assess operation does fail (the exception escapes
`analyze_risk` and is caught at the node boundary), so the completed run
carries no risk assessment, no finding and no compliance outcome, and its
decision is the incomplete-analysis REVIEW, not a heuristic-derived one. -/
theorem c2_capability_down_behaviour (loads : String → Except String JVal)
    (t : Transaction) (e1 e2 e3 : String) :
    analyze_risk loads (.error e1) t = .error e1
    ∧ (investigate loads (.error e1) (.error e2) (.error e3) t).1 =
        .ok { transaction_id := t.transaction_id, steps := ["Final Decision: REVIEW"],
              risk_analysis := none, fraud_investigation := none,
              compliance_check := none, final_decision := .str "REVIEW",
              decision_reason := "Manual review required due to incomplete analysis.",
              status := "completed" } :=
  ⟨rfl, rfl⟩

/-- C10: a transaction with amount over $5,000 at an unusual hour and no
other factor scores exactly 0.40: the level thresholds (greater-or-equal)
classify it Medium, the escalation branch (strict greater-than) takes the
approve path, the generated Medium-level explanation nevertheless ends with
"Escalating for investigation.", and the run is never escalated and
finishes with decision APPROVE. -/
theorem c10_boundary_behaviour :
    (calculate_heuristic_risk txBoundary).1 = 400000
    ∧ score_to_level (calculate_heuristic_risk txBoundary).1 = "Medium"
    ∧ should_investigate (some (okRA
        (investigate loadsNone (.ok "junk") (.ok "junk") (.ok "junk") txBoundary).1))
        = "approve"
    ∧ dget (okRA (investigate loadsNone (.ok "junk") (.ok "junk") (.ok "junk")
        txBoundary).1) "escalated" = some (.bool false)
    ∧ strEndsWith (pyStr (dgetD (okRA (investigate loadsNone (.ok "junk") (.ok "junk")
        (.ok "junk") txBoundary).1) "explanation" .null))
        "Escalating for investigation." = true
    ∧ runFI (investigate loadsNone (.ok "junk") (.ok "junk") (.ok "junk")
        txBoundary).1 = none
    ∧ runDecision (investigate loadsNone (.ok "junk") (.ok "junk") (.ok "junk")
        txBoundary).1 = .str "APPROVE"
    ∧ runStatus (investigate loadsNone (.ok "junk") (.ok "junk") (.ok "junk")
        txBoundary).1 = "completed" :=
  ⟨rfl, rfl, rfl, rfl, rfl, rfl, rfl, rfl⟩

/-- C3: whenever the Assessing stage succeeds, a computed risk score
strictly above 0.40 makes the run pass through Investigating and Reviewing
(both optional outputs recorded, even if those stages fall back
internally), while a score of at most 0.40 — including exactly 0.40 —
skips both (neither output recorded), in the branch state and in any
returned run. -/
theorem c3_branch_correctness (loads : String → Except String JVal)
    (r1 r2 r3 : Except String String) (t : Transaction)
    (h : exceptIsOk (analyze_risk loads r1 t) = true) :
    (400000 < (calculate_heuristic_risk t).1 →
      ((run_stages loads r1 r2 r3 t).1.fraud_investigation.isSome = true
       ∧ (run_stages loads r1 r2 r3 t).1.compliance_check.isSome = true
       ∧ ∀ run, (investigate loads r1 r2 r3 t).1 = .ok run →
           run.fraud_investigation.isSome = true
           ∧ run.compliance_check.isSome = true))
    ∧ ((calculate_heuristic_risk t).1 ≤ 400000 →
      ((run_stages loads r1 r2 r3 t).1.fraud_investigation = none
       ∧ (run_stages loads r1 r2 r3 t).1.compliance_check = none
       ∧ ∀ run, (investigate loads r1 r2 r3 t).1 = .ok run →
           run.fraud_investigation = none ∧ run.compliance_check = none)) := by
  cases ha : analyze_risk loads r1 t with
  | error e => rw [ha] at h; simp [exceptIsOk] at h
  | ok ra =>
    have hra' : analyze_risk loads r1 (initial_state t).transaction = .ok ra := ha
    obtain ⟨ra', msg, hnode, hsc, hne⟩ := risk_node_ok loads r1 (initial_state t) ra hra'
    have hbranch := should_investigate_eval ra' (calculate_heuristic_risk t).1 hsc hne
    have hfact : (risk_analysis_node loads r1 (initial_state t)).1.risk_analysis
        = some ra' := by rw [hnode]
    have hfi0 : (risk_analysis_node loads r1 (initial_state t)).1.fraud_investigation
        = none := by rw [hnode]; rfl
    have hcc0 : (risk_analysis_node loads r1 (initial_state t)).1.compliance_check
        = none := by rw [hnode]; rfl
    constructor
    · intro hlt
      have hroute : should_investigate (some ra') = "investigate" := by
        rw [hbranch, if_pos hlt]
      have key : run_stages loads r1 r2 r3 t =
          ((compliance_check_node loads r3
              (fraud_investigation_node loads r2
                (risk_analysis_node loads r1 (initial_state t)).1).1).1,
           (risk_analysis_node loads r1 (initial_state t)).2
           ++ (fraud_investigation_node loads r2
                (risk_analysis_node loads r1 (initial_state t)).1).2
           ++ (compliance_check_node loads r3
              (fraud_investigation_node loads r2
                (risk_analysis_node loads r1 (initial_state t)).1).1).2) := by
        unfold run_stages
        dsimp only
        rw [hfact, hroute]
        simp
      have hfi : (run_stages loads r1 r2 r3 t).1.fraud_investigation.isSome = true := by
        rw [key]
        dsimp only
        rw [(compliance_node_shape loads r3 _).2.2.1]
        exact (fraud_node_shape loads r2 _).1
      have hcc : (run_stages loads r1 r2 r3 t).1.compliance_check.isSome = true := by
        rw [key]
        exact (compliance_node_shape loads r3 _).1
      refine ⟨hfi, hcc, ?_⟩
      intro run hok
      unfold investigate at hok
      dsimp only at hok
      cases hf : finalize_node (run_stages loads r1 r2 r3 t).1 with
      | error e => rw [hf] at hok; simp at hok
      | ok s2 =>
        rw [hf] at hok
        dsimp only at hok
        injection hok with hok
        subst hok
        obtain ⟨-, hfi2, hcc2, -, -⟩ := finalize_fields _ _ hf
        constructor
        · show s2.fraud_investigation.isSome = true
          rw [hfi2]; exact hfi
        · show s2.compliance_check.isSome = true
          rw [hcc2]; exact hcc
    · intro hle
      have hroute : should_investigate (some ra') = "approve" := by
        rw [hbranch, if_neg (by omega)]
      have key : run_stages loads r1 r2 r3 t =
          risk_analysis_node loads r1 (initial_state t) := by
        unfold run_stages
        dsimp only
        rw [hfact, hroute]
        simp
      have hfi : (run_stages loads r1 r2 r3 t).1.fraud_investigation = none := by
        rw [key]; exact hfi0
      have hcc : (run_stages loads r1 r2 r3 t).1.compliance_check = none := by
        rw [key]; exact hcc0
      refine ⟨hfi, hcc, ?_⟩
      intro run hok
      unfold investigate at hok
      dsimp only at hok
      cases hf : finalize_node (run_stages loads r1 r2 r3 t).1 with
      | error e => rw [hf] at hok; simp at hok
      | ok s2 =>
        rw [hf] at hok
        dsimp only at hok
        injection hok with hok
        subst hok
        obtain ⟨-, hfi2, hcc2, -, -⟩ := finalize_fields _ _ hf
        constructor
        · show s2.fraud_investigation = none
          rw [hfi2]; exact hfi
        · show s2.compliance_check = none
          rw [hcc2]; exact hcc

/-- Witness for C3: a concrete score-0.65 transaction escalates and both
stage outputs are recorded, and a concrete score-0.40 transaction skips
both. -/
theorem c3_witness :
    ((run_stages loadsNone (.ok "junk") (.ok "junk") (.ok "junk")
        txHigh).1.fraud_investigation.isSome = true
      ∧ (run_stages loadsNone (.ok "junk") (.ok "junk") (.ok "junk")
        txHigh).1.compliance_check.isSome = true)
    ∧ ((run_stages loadsNone (.ok "junk") (.ok "junk") (.ok "junk")
        txBoundary).1.fraud_investigation = none
      ∧ (run_stages loadsNone (.ok "junk") (.ok "junk") (.ok "junk")
        txBoundary).1.compliance_check = none) := by
  have h1 := c3_branch_correctness loadsNone (.ok "junk") (.ok "junk") (.ok "junk")
    txHigh rfl
  have h2 := c3_branch_correctness loadsNone (.ok "junk") (.ok "junk") (.ok "junk")
    txBoundary rfl
  obtain ⟨a, b, -⟩ := h1.1 (by decide)
  obtain ⟨c, d, -⟩ := h2.2 (by decide)
  exact ⟨⟨a, b⟩, ⟨c, d⟩⟩

/-- C5 counterexample: a capability response whose finding carries an empty
recommendation string makes the run complete with an empty final decision,
which is not one of APPROVE, DECLINE or REVIEW. -/
theorem c5_counterexample :
    runStatus (investigate loads5 (.ok "junk") (.ok "R2") (.ok "junk") txHigh).1
      = "completed"
    ∧ runDecision (investigate loads5 (.ok "junk") (.ok "R2") (.ok "junk") txHigh).1
      = .str ""
    ∧ JVal.str "" ≠ .str "APPROVE" ∧ JVal.str "" ≠ .str "DECLINE"
    ∧ JVal.str "" ≠ .str "REVIEW" := by
  refine ⟨rfl, rfl, ?_, ?_, ?_⟩ <;> simp

/-- C5 (amended): whenever `investigate` returns a run (it can instead
propagate an exception raised in Finalizing on malformed capability
output), the run's status is "completed" (a returned status of "error" is
unreachable), and the final decision is APPROVE, REVIEW, or — verbatim and
unvalidated — the recommendation field of the recorded finding, so it lies
in the set APPROVE, DECLINE, REVIEW exactly when that capability-supplied
field does. -/
theorem c5_run_outcome (loads : String → Except String JVal)
    (r1 r2 r3 : Except String String) (t : Transaction) (run : WorkflowRun)
    (hok : (investigate loads r1 r2 r3 t).1 = .ok run) :
    run.status = "completed"
    ∧ (run.final_decision = .str "APPROVE" ∨ run.final_decision = .str "REVIEW"
       ∨ ∃ fi, run.fraud_investigation = some fi
           ∧ run.final_decision = dgetD fi "recommendation" (.str "REVIEW")) := by
  unfold investigate at hok
  dsimp only at hok
  cases hf : finalize_node (run_stages loads r1 r2 r3 t).1 with
  | error e => rw [hf] at hok; simp at hok
  | ok s2 =>
    rw [hf] at hok
    dsimp only at hok
    injection hok with hok
    subst hok
    obtain ⟨-, hfi2, -, hst, -⟩ := finalize_fields _ _ hf
    refine ⟨hst, ?_⟩
    rcases finalize_decision _ _ hf with hd | hd | ⟨fi, hfi, hd⟩
    · exact Or.inl hd
    · exact Or.inr (Or.inl hd)
    · refine Or.inr (Or.inr ⟨fi, ?_, hd⟩)
      show s2.fraud_investigation = some fi
      rw [hfi2, hfi]

/-- Witness for the amended C5. -/
theorem c5_witness :
    runStatus (investigate loadsNone (.ok "junk") (.ok "junk") (.ok "junk")
      txBoundary).1 = "completed" := by
  exact (c5_run_outcome loadsNone (.ok "junk") (.ok "junk") (.ok "junk")
    txBoundary _ rfl).1

/-- A capability failure during the Deep Investigator call never makes the
run fatal: the workflow still returns a completed run. -/
theorem investigator_obtain_failure_nonfatal (loads : String → Except String JVal)
    (r1 r3 : Except String String) (t : Transaction) (e2 : String) :
    exceptIsOk (investigate loads r1 (.error e2) r3 t).1 = true
    ∧ runStatus (investigate loads r1 (.error e2) r3 t).1 = "completed" := by
  have finish : ∀ (key : InvestigationState × List WfEvent),
      run_stages loads r1 (.error e2) r3 t = key →
      exceptIsOk (finalize_node key.1) = true →
      exceptIsOk (investigate loads r1 (.error e2) r3 t).1 = true
      ∧ runStatus (investigate loads r1 (.error e2) r3 t).1 = "completed" := by
    intro key hkey hfin
    unfold investigate
    dsimp only
    rw [hkey]
    cases hf : finalize_node key.1 with
    | error e3 => rw [hf] at hfin; simp [exceptIsOk] at hfin
    | ok s2 =>
      dsimp only
      obtain ⟨-, -, -, hst, -⟩ := finalize_fields _ _ hf
      exact ⟨rfl, hst⟩
  cases ha : analyze_risk loads r1 t with
  | error e =>
    have ht1 : risk_analysis_try loads r1 (initial_state t) = .error e := by
      unfold risk_analysis_try
      rw [show analyze_risk loads r1 (initial_state t).transaction = .error e from ha]
    have hnode := risk_node_error loads r1 (initial_state t) e ht1
    have hfact : (risk_analysis_node loads r1 (initial_state t)).1.risk_analysis
        = none := by rw [hnode]; rfl
    have key : run_stages loads r1 (.error e2) r3 t =
        risk_analysis_node loads r1 (initial_state t) := by
      unfold run_stages
      dsimp only
      rw [hfact]
      simp [should_investigate]
    refine finish _ key (finalize_ok_no_fi _ ?_ (Or.inl hfact))
    rw [hnode]; rfl
  | ok ra =>
    have hra' : analyze_risk loads r1 (initial_state t).transaction = .ok ra := ha
    obtain ⟨ra', msg, hnode, hsc, hne⟩ := risk_node_ok loads r1 (initial_state t) ra hra'
    have hfact : (risk_analysis_node loads r1 (initial_state t)).1.risk_analysis
        = some ra' := by rw [hnode]
    have hfi0 : (risk_analysis_node loads r1 (initial_state t)).1.fraud_investigation
        = none := by rw [hnode]; rfl
    by_cases hb : should_investigate (some ra') = "investigate"
    · have key : run_stages loads r1 (.error e2) r3 t =
          ((compliance_check_node loads r3
              (fraud_investigation_node loads (.error e2)
                (risk_analysis_node loads r1 (initial_state t)).1).1).1,
           (risk_analysis_node loads r1 (initial_state t)).2
           ++ (fraud_investigation_node loads (.error e2)
                (risk_analysis_node loads r1 (initial_state t)).1).2
           ++ (compliance_check_node loads r3
              (fraud_investigation_node loads (.error e2)
                (risk_analysis_node loads r1 (initial_state t)).1).1).2) := by
        unfold run_stages
        dsimp only
        rw [hfact, hb]
        simp
      have hfb : (fraud_investigation_node loads (.error e2)
          (risk_analysis_node loads r1 (initial_state t)).1).1.fraud_investigation
          = some [("recommendation", .str "REVIEW"), ("fraud_likelihood", .str "Unknown"),
                  ("explanation", .str ("Investigation error: " ++ e2))] := rfl
      have hfbra : (fraud_investigation_node loads (.error e2)
          (risk_analysis_node loads r1 (initial_state t)).1).1.risk_analysis
          = some ra' := by
        rw [show (fraud_investigation_node loads (.error e2)
          (risk_analysis_node loads r1 (initial_state t)).1).1.risk_analysis
          = (risk_analysis_node loads r1 (initial_state t)).1.risk_analysis from rfl]
        exact hfact
      refine finish _ key (finalize_ok_fallback_fi _ e2 ?_ ?_)
      · dsimp only
        rw [(compliance_node_shape loads r3 _).2.2.1]
        exact hfb
      · refine Or.inr ⟨ra', (calculate_heuristic_risk (initial_state t).transaction).1, ?_, hsc⟩
        dsimp only
        rw [(compliance_node_shape loads r3 _).2.1]
        exact hfbra
    · have key : run_stages loads r1 (.error e2) r3 t =
          risk_analysis_node loads r1 (initial_state t) := by
        unfold run_stages
        dsimp only
        rw [hfact]
        simp [hb]
      refine finish _ key (finalize_ok_no_fi _ hfi0 ?_)
      exact Or.inr ⟨ra', (calculate_heuristic_risk (initial_state t).transaction).1, hfact, hsc⟩

/-- C6 counterexample: when the investigator fails to OBTAIN a response
(the capability call raises), the finding recorded for the run is the
workflow node's three-field fallback — it has no confidence key at all
(so not confidence 0.5) and no indicator or action lists — although the
run still completes. -/
theorem c6_counterexample :
    okFI (investigate loadsNone (.ok "junk") (.error "boom") (.ok "junk") txHigh).1
      = [("recommendation", .str "REVIEW"), ("fraud_likelihood", .str "Unknown"),
         ("explanation", .str "Investigation error: boom")]
    ∧ dget (okFI (investigate loadsNone (.ok "junk") (.error "boom") (.ok "junk")
        txHigh).1) "confidence" = none
    ∧ dget (okFI (investigate loadsNone (.ok "junk") (.error "boom") (.ok "junk")
        txHigh).1) "fraud_indicators" = none
    ∧ runStatus (investigate loadsNone (.ok "junk") (.error "boom") (.ok "junk")
        txHigh).1 = "completed" :=
  ⟨rfl, rfl, rfl, rfl⟩

/-- C6 (amended): a PARSE failure makes `investigate_transaction` return the
documented fallback finding (likelihood Unknown, recommendation REVIEW,
explanation the raw text, confidence 0.5, empty indicator and action lists,
plus the raw_response/parse_error markers); a failure to OBTAIN the
response raises out of `investigate_transaction` and is absorbed at the
node boundary into the smaller three-field fallback (recommendation
REVIEW, likelihood Unknown, error-text explanation — without confidence or
list fields); neither failure is fatal to the run. -/
theorem c6_investigator_failure_modes :
    (∀ (loads : String → Except String JVal) (response : String)
        (t : Transaction) (rs : ℤ) (ps : JVal) (e e' : String),
      loads response = .error e →
      loads (extractCandidate response) = .error e' →
      investigate_transaction loads (.ok response) t rs ps =
        .ok [("raw_response", .str response), ("parse_error", .str e'),
             ("fraud_likelihood", .str "Unknown"), ("recommendation", .str "REVIEW"),
             ("fraud_indicators", .arr []), ("explanation", .str response),
             ("confidence", .num 500000), ("suggested_actions", .arr []),
             ("agent", .str "Fraud Investigator")])
    ∧ (∀ (loads : String → Except String JVal) (e : String)
        (s : InvestigationState),
      fraud_investigation_node loads (.error e) s =
        ({ s with
            fraud_investigation := some
              [("recommendation", .str "REVIEW"), ("fraud_likelihood", .str "Unknown"),
               ("explanation", .str ("Investigation error: " ++ e))],
            steps := s.steps ++ ["Fraud Investigator: Error - " ++ e] },
         [WfEvent.agent_thinking "Fraud Investigator"
            "Investigating suspicious activity..."]))
    ∧ (∀ (loads : String → Except String JVal) (r1 r3 : Except String String)
        (t : Transaction) (e2 : String),
      exceptIsOk (investigate loads r1 (.error e2) r3 t).1 = true
      ∧ runStatus (investigate loads r1 (.error e2) r3 t).1 = "completed") := by
  refine ⟨?_, ?_, ?_⟩
  · intro loads response t rs ps e e' h1 h2
    unfold investigate_transaction
    dsimp only
    unfold parse_json_response
    rw [h1]
    dsimp only
    rw [h2]
    rfl
  · intro loads e s
    rfl
  · intro loads r1 r3 t e2
    exact investigator_obtain_failure_nonfatal loads r1 r3 t e2

/-- Witness for the amended C6: the parse-failure fallback at a concrete
unparsable response. -/
theorem c6_witness :
    investigate_transaction loadsNone (.ok "junk") txHigh 650000 (.arr []) =
      .ok [("raw_response", .str "junk"),
           ("parse_error", .str "Expecting value: line 1 column 1 (char 0)"),
           ("fraud_likelihood", .str "Unknown"), ("recommendation", .str "REVIEW"),
           ("fraud_indicators", .arr []), ("explanation", .str "junk"),
           ("confidence", .num 500000), ("suggested_actions", .arr []),
           ("agent", .str "Fraud Investigator")] := by
  exact c6_investigator_failure_modes.1 loadsNone "junk" txHigh 650000 (.arr [])
    "Expecting value: line 1 column 1 (char 0)"
    "Expecting value: line 1 column 1 (char 0)" rfl rfl

/-- C8: the parsing step is a total function — bare JSON is returned as
parsed; when direct parsing fails, the markdown-fence extraction is parsed
instead; when both fail, the result is the degraded object carrying the
raw text and the parse-error message; and a component fed such unparsable
text still returns, with every required field defaulted, never raising
from the parsing step. -/
theorem c8_parse_tolerance (loads : String → Except String JVal)
    (response : String) :
    (∀ j, loads response = .ok j → parse_json_response loads response = j)
    ∧ (∀ e, loads response = .error e →
        (∀ j, loads (extractCandidate response) = .ok j →
          parse_json_response loads response = j)
        ∧ (∀ e', loads (extractCandidate response) = .error e' →
          parse_json_response loads response =
            .obj [("raw_response", .str response), ("parse_error", .str e')]))
    ∧ (∀ (e e' : String) (t : Transaction) (rs : ℤ) (ps : JVal),
        loads response = .error e →
        loads (extractCandidate response) = .error e' →
        ∃ d, investigate_transaction loads (.ok response) t rs ps = .ok d
          ∧ dget d "fraud_likelihood" = some (.str "Unknown")
          ∧ dget d "recommendation" = some (.str "REVIEW")
          ∧ dget d "fraud_indicators" = some (.arr [])
          ∧ dget d "explanation" = some (.str response)
          ∧ dget d "confidence" = some (.num 500000)
          ∧ dget d "suggested_actions" = some (.arr [])
          ∧ dget d "raw_response" = some (.str response)
          ∧ dget d "parse_error" = some (.str e')) := by
  refine ⟨?_, ?_, ?_⟩
  · intro j h
    unfold parse_json_response
    rw [h]
  · intro e h
    constructor
    · intro j h2
      unfold parse_json_response
      rw [h]
      dsimp only
      rw [h2]
    · intro e' h2
      unfold parse_json_response
      rw [h]
      dsimp only
      rw [h2]
  · intro e e' t rs ps h1 h2
    refine ⟨[("raw_response", .str response), ("parse_error", .str e'),
             ("fraud_likelihood", .str "Unknown"), ("recommendation", .str "REVIEW"),
             ("fraud_indicators", .arr []), ("explanation", .str response),
             ("confidence", .num 500000), ("suggested_actions", .arr []),
             ("agent", .str "Fraud Investigator")], ?_, rfl, rfl, rfl, rfl, rfl, rfl, rfl, rfl⟩
    unfold investigate_transaction
    dsimp only
    unfold parse_json_response
    rw [h1]
    dsimp only
    rw [h2]
    rfl

/-- Witness for C8: a response wrapped in a markdown code fence is parsed
through the fence extraction (the extraction is computed by the real
split/strip chain), while the full text itself is unparsable. -/
theorem c8_witness :
    parse_json_response loadsFence fencedResponse =
      .obj [("recommendation", .str "APPROVE")] := by
  exact ((c8_parse_tolerance loadsFence fencedResponse).2.1
    "Expecting value: line 1 column 1 (char 0)" rfl).1
    (.obj [("recommendation", .str "APPROVE")]) rfl

theorem except_ok_inj {α : Type} {x y : α}
    (h : Except.ok (ε := String) x = Except.ok y) : x = y := by
  injection h

theorem except_ok_ne_error {α : Type} (x : α) (e : String)
    (h : Except.ok (ε := String) x = Except.error e) : False := by
  simp at h

theorem except_error_ne_ok {α : Type} (x : α) (e : String)
    (h : Except.error (ε := String) e = Except.ok x) : False := by
  simp at h

/-- Stage-order helper: whatever else Finalizing writes, it appends exactly
one entry at the end of the step log - the final-decision entry for the
decision it records. -/
theorem finalize_steps (s s' : InvestigationState)
    (h : finalize_node s = .ok s') :
    s'.steps = s.steps ++ ["Final Decision: " ++ pyStr s'.final_decision] := by
  unfold finalize_node at h
  dsimp only at h
  split at h
  · split at h
    · simp at h
    · injection h with h
      subst h
      rfl
  · split at h
    · split at h
      · simp at h
      · injection h with h
        subst h
        rfl
    · injection h with h
      subst h
      rfl

/-- Stage-order helper: the step entry the Assessing stage appends starts
with the Risk Analyst prefix, hence sits at step-log stage position 1. -/
theorem risk_try_steprank (loads : String → Except String JVal)
    (resp : Except String String) (s : InvestigationState) (x : Dict × String)
    (h : risk_analysis_try loads resp s = .ok x) : stepRank x.2 = 1 := by
  unfold risk_analysis_try at h
  split at h
  · simp at h
  · dsimp only at h
    split at h
    · simp at h
    · split at h
      · split at h
        · injection h with h
          subst h
          rfl
        · simp at h
      · simp at h
      · simp at h

/-- Stage-order helper: the step entry the Investigating stage appends on
success starts with the Fraud Investigator prefix (stage position 2). -/
theorem fraud_try_steprank (loads : String → Except String JVal)
    (resp : Except String String) (s : InvestigationState) (x : Dict × String)
    (h : fraud_investigation_try loads resp s = .ok x) : stepRank x.2 = 2 := by
  unfold fraud_investigation_try at h
  dsimp only at h
  split at h
  · simp at h
  · split at h
    · injection h with h
      subst h
      rfl
    · simp at h
    · simp at h

/-- Stage-order helper: the step entry the Reviewing stage appends on
success starts with the Compliance Officer prefix (stage position 3). -/
theorem compliance_try_steprank (loads : String → Except String JVal)
    (resp : Except String String) (s : InvestigationState) (x : Dict × String)
    (h : compliance_check_try loads resp s = .ok x) : stepRank x.2 = 3 := by
  unfold compliance_check_try at h
  dsimp only at h
  split at h
  · simp at h
  · split at h
    · simp at h
    · injection h with h
      subst h
      rfl

/-- C9 (amended): within one run the emitted events follow strict stage
order (their stage positions strictly increase: start, assessor thinking
then result, then — only on escalation — investigator thinking/result and
reviewer thinking/result), the first event is investigation_start, and the
step log is appended in the same stage order: the stage positions of the
step-log entries strictly increase both in the pre-Finalizing state and in
any returned run, whose step log moreover ends with the single
final-decision entry; whenever the workflow returns a run, the trace ends
with exactly one terminal investigation_complete carrying that run; if
Finalizing raises (possible only on malformed capability-supplied finding
fields), no terminal event is emitted; and a non-escalated run emits no
investigator or reviewer events. -/
theorem c9_event_ordering (loads : String → Except String JVal)
    (r1 r2 r3 : Except String String) (t : Transaction) :
    ranksStrictlyIncrease (((investigate loads r1 r2 r3 t).2).map eventRank) = true
    ∧ ((investigate loads r1 r2 r3 t).2).head? =
        some (.investigation_start t.transaction_id)
    ∧ (∀ run, (investigate loads r1 r2 r3 t).1 = .ok run →
        ((investigate loads r1 r2 r3 t).2).getLast? =
          some (.investigation_complete run)
        ∧ ((investigate loads r1 r2 r3 t).2).countP isCompleteEv = 1)
    ∧ (∀ e, (investigate loads r1 r2 r3 t).1 = .error e →
        ((investigate loads r1 r2 r3 t).2).countP isCompleteEv = 0)
    ∧ (should_investigate
          ((risk_analysis_node loads r1 (initial_state t)).1.risk_analysis)
          ≠ "investigate" →
        ((investigate loads r1 r2 r3 t).2).all
          (fun ev => !isInvestigatorOrReviewerEv ev) = true)
    ∧ ranksStrictlyIncrease
        (((run_stages loads r1 r2 r3 t).1.steps).map stepRank) = true
    ∧ (∀ run, (investigate loads r1 r2 r3 t).1 = .ok run →
        ranksStrictlyIncrease ((run.steps).map stepRank) = true
        ∧ ∃ l, run.steps =
            l ++ ["Final Decision: " ++ pyStr run.final_decision]) := by
  cases ht1 : risk_analysis_try loads r1 (initial_state t) with
  | error e =>
    have hnode := risk_node_error loads r1 (initial_state t) e ht1
    have hfact : (risk_analysis_node loads r1 (initial_state t)).1.risk_analysis
        = none := by rw [hnode]; rfl
    have key : run_stages loads r1 r2 r3 t =
        risk_analysis_node loads r1 (initial_state t) := by
      unfold run_stages
      dsimp only
      rw [hfact]
      simp [should_investigate]
    unfold investigate
    dsimp only
    rw [key, hnode]
    refine ⟨rfl, rfl, ?_, ?_, ?_, rfl, ?_⟩
    · intro run h
      obtain rfl := except_ok_inj h
      exact ⟨rfl, rfl⟩
    · intro e' h
      exact (except_ok_ne_error _ _ h).elim
    · intro _
      rfl
    · intro run h
      obtain rfl := except_ok_inj h
      exact ⟨rfl, [], rfl⟩
  | ok x =>
    have hfact : (risk_analysis_node loads r1 (initial_state t)).1.risk_analysis
        = some x.1 := by
      unfold risk_analysis_node
      rw [ht1]
    have hev : (risk_analysis_node loads r1 (initial_state t)).2 =
        [WfEvent.agent_thinking "Risk Analyst" "Analyzing transaction risk...",
         WfEvent.agent_result "Risk Analyst" x.1] := by
      unfold risk_analysis_node
      rw [ht1]
    have hsv : (risk_analysis_node loads r1 (initial_state t)).1.steps =
        (initial_state t).steps ++ [x.2] := by
      unfold risk_analysis_node
      rw [ht1]
    have hr1 : stepRank x.2 = 1 := risk_try_steprank loads r1 (initial_state t) x ht1
    by_cases hb : should_investigate (some x.1) = "investigate"
    · have key : run_stages loads r1 r2 r3 t =
          ((compliance_check_node loads r3
              (fraud_investigation_node loads r2
                (risk_analysis_node loads r1 (initial_state t)).1).1).1,
           (risk_analysis_node loads r1 (initial_state t)).2
           ++ (fraud_investigation_node loads r2
                (risk_analysis_node loads r1 (initial_state t)).1).2
           ++ (compliance_check_node loads r3
              (fraud_investigation_node loads r2
                (risk_analysis_node loads r1 (initial_state t)).1).1).2) := by
        unfold run_stages
        dsimp only
        rw [hfact, hb]
        simp
      unfold investigate
      dsimp only
      rw [key]
      dsimp only
      cases hft : fraud_investigation_try loads r2
          (risk_analysis_node loads r1 (initial_state t)).1 with
      | ok y =>
        have hfe : (fraud_investigation_node loads r2
            (risk_analysis_node loads r1 (initial_state t)).1).2 =
            [WfEvent.agent_thinking "Fraud Investigator"
               "Investigating suspicious activity...",
             WfEvent.agent_result "Fraud Investigator" y.1] := by
          unfold fraud_investigation_node
          rw [hft]
        have hfs : (fraud_investigation_node loads r2
            (risk_analysis_node loads r1 (initial_state t)).1).1.steps =
            (risk_analysis_node loads r1 (initial_state t)).1.steps ++ [y.2] := by
          unfold fraud_investigation_node
          rw [hft]
        have hr2 : stepRank y.2 = 2 :=
          fraud_try_steprank loads r2 (risk_analysis_node loads r1 (initial_state t)).1 y hft
        cases hct : compliance_check_try loads r3
            (fraud_investigation_node loads r2
              (risk_analysis_node loads r1 (initial_state t)).1).1 with
        | ok z =>
          have hce : (compliance_check_node loads r3
              (fraud_investigation_node loads r2
                (risk_analysis_node loads r1 (initial_state t)).1).1).2 =
              [WfEvent.agent_thinking "Compliance Officer"
                 "Checking regulatory requirements...",
               WfEvent.agent_result "Compliance Officer" z.1] := by
            unfold compliance_check_node
            rw [hct]
          have hcs : (compliance_check_node loads r3
              (fraud_investigation_node loads r2
                (risk_analysis_node loads r1 (initial_state t)).1).1).1.steps =
              (fraud_investigation_node loads r2
                (risk_analysis_node loads r1 (initial_state t)).1).1.steps ++ [z.2] := by
            unfold compliance_check_node
            rw [hct]
          have hr3 : stepRank z.2 = 3 :=
            compliance_try_steprank loads r3
              (fraud_investigation_node loads r2
                (risk_analysis_node loads r1 (initial_state t)).1).1 z hct
          cases hf : finalize_node (compliance_check_node loads r3
              (fraud_investigation_node loads r2
                (risk_analysis_node loads r1 (initial_state t)).1).1).1 with
          | ok s2 =>
            dsimp only
            rw [hev, hfe, hce]
            refine ⟨rfl, rfl, ?_, ?_, ?_, ?_, ?_⟩
            · intro run h
              obtain rfl := except_ok_inj h
              exact ⟨rfl, rfl⟩
            · intro e' h
              exact (except_ok_ne_error _ _ h).elim
            · intro hno
              rw [hfact] at hno
              exact absurd hb hno
            · rw [hcs, hfs, hsv]
              simp [ranksStrictlyIncrease, initial_state, hr1, hr2, hr3]
            · intro run h
              obtain rfl := except_ok_inj h
              have hsfin := finalize_steps _ _ hf
              have hr4 : stepRank ("Final Decision: " ++ pyStr s2.final_decision) = 4 := rfl
              constructor
              · show ranksStrictlyIncrease (List.map stepRank s2.steps) = true
                rw [hsfin, hcs, hfs, hsv]
                simp [ranksStrictlyIncrease, initial_state, hr1, hr2, hr3, hr4]
              · show ∃ l, s2.steps =
                  l ++ ["Final Decision: " ++ pyStr s2.final_decision]
                exact ⟨_, hsfin⟩
          | error e2 =>
            dsimp only
            rw [hev, hfe, hce]
            refine ⟨rfl, rfl, ?_, ?_, ?_, ?_, ?_⟩
            · intro run h
              exact (except_error_ne_ok _ _ h).elim
            · intro e' h
              rfl
            · intro hno
              rw [hfact] at hno
              exact absurd hb hno
            · rw [hcs, hfs, hsv]
              simp [ranksStrictlyIncrease, initial_state, hr1, hr2, hr3]
            · intro run h
              exact (except_error_ne_ok _ _ h).elim
        | error ec =>
          have hce : (compliance_check_node loads r3
              (fraud_investigation_node loads r2
                (risk_analysis_node loads r1 (initial_state t)).1).1).2 =
              [WfEvent.agent_thinking "Compliance Officer"
                 "Checking regulatory requirements..."] := by
            unfold compliance_check_node
            rw [hct]
          have hcs : (compliance_check_node loads r3
              (fraud_investigation_node loads r2
                (risk_analysis_node loads r1 (initial_state t)).1).1).1.steps =
              (fraud_investigation_node loads r2
                (risk_analysis_node loads r1 (initial_state t)).1).1.steps ++
              ["Compliance Officer: Error - " ++ ec] := by
            unfold compliance_check_node
            rw [hct]
          have hr3 : stepRank ("Compliance Officer: Error - " ++ ec) = 3 := rfl
          cases hf : finalize_node (compliance_check_node loads r3
              (fraud_investigation_node loads r2
                (risk_analysis_node loads r1 (initial_state t)).1).1).1 with
          | ok s2 =>
            dsimp only
            rw [hev, hfe, hce]
            refine ⟨rfl, rfl, ?_, ?_, ?_, ?_, ?_⟩
            · intro run h
              obtain rfl := except_ok_inj h
              exact ⟨rfl, rfl⟩
            · intro e' h
              exact (except_ok_ne_error _ _ h).elim
            · intro hno
              rw [hfact] at hno
              exact absurd hb hno
            · rw [hcs, hfs, hsv]
              simp [ranksStrictlyIncrease, initial_state, hr1, hr2, hr3]
            · intro run h
              obtain rfl := except_ok_inj h
              have hsfin := finalize_steps _ _ hf
              have hr4 : stepRank ("Final Decision: " ++ pyStr s2.final_decision) = 4 := rfl
              constructor
              · show ranksStrictlyIncrease (List.map stepRank s2.steps) = true
                rw [hsfin, hcs, hfs, hsv]
                simp [ranksStrictlyIncrease, initial_state, hr1, hr2, hr3, hr4]
              · show ∃ l, s2.steps =
                  l ++ ["Final Decision: " ++ pyStr s2.final_decision]
                exact ⟨_, hsfin⟩
          | error e2 =>
            dsimp only
            rw [hev, hfe, hce]
            refine ⟨rfl, rfl, ?_, ?_, ?_, ?_, ?_⟩
            · intro run h
              exact (except_error_ne_ok _ _ h).elim
            · intro e' h
              rfl
            · intro hno
              rw [hfact] at hno
              exact absurd hb hno
            · rw [hcs, hfs, hsv]
              simp [ranksStrictlyIncrease, initial_state, hr1, hr2, hr3]
            · intro run h
              exact (except_error_ne_ok _ _ h).elim
      | error ef =>
        have hfe : (fraud_investigation_node loads r2
            (risk_analysis_node loads r1 (initial_state t)).1).2 =
            [WfEvent.agent_thinking "Fraud Investigator"
               "Investigating suspicious activity..."] := by
          unfold fraud_investigation_node
          rw [hft]
        have hfs : (fraud_investigation_node loads r2
            (risk_analysis_node loads r1 (initial_state t)).1).1.steps =
            (risk_analysis_node loads r1 (initial_state t)).1.steps ++
            ["Fraud Investigator: Error - " ++ ef] := by
          unfold fraud_investigation_node
          rw [hft]
        have hr2 : stepRank ("Fraud Investigator: Error - " ++ ef) = 2 := rfl
        cases hct : compliance_check_try loads r3
            (fraud_investigation_node loads r2
              (risk_analysis_node loads r1 (initial_state t)).1).1 with
        | ok z =>
          have hce : (compliance_check_node loads r3
              (fraud_investigation_node loads r2
                (risk_analysis_node loads r1 (initial_state t)).1).1).2 =
              [WfEvent.agent_thinking "Compliance Officer"
                 "Checking regulatory requirements...",
               WfEvent.agent_result "Compliance Officer" z.1] := by
            unfold compliance_check_node
            rw [hct]
          have hcs : (compliance_check_node loads r3
              (fraud_investigation_node loads r2
                (risk_analysis_node loads r1 (initial_state t)).1).1).1.steps =
              (fraud_investigation_node loads r2
                (risk_analysis_node loads r1 (initial_state t)).1).1.steps ++ [z.2] := by
            unfold compliance_check_node
            rw [hct]
          have hr3 : stepRank z.2 = 3 :=
            compliance_try_steprank loads r3
              (fraud_investigation_node loads r2
                (risk_analysis_node loads r1 (initial_state t)).1).1 z hct
          cases hf : finalize_node (compliance_check_node loads r3
              (fraud_investigation_node loads r2
                (risk_analysis_node loads r1 (initial_state t)).1).1).1 with
          | ok s2 =>
            dsimp only
            rw [hev, hfe, hce]
            refine ⟨rfl, rfl, ?_, ?_, ?_, ?_, ?_⟩
            · intro run h
              obtain rfl := except_ok_inj h
              exact ⟨rfl, rfl⟩
            · intro e' h
              exact (except_ok_ne_error _ _ h).elim
            · intro hno
              rw [hfact] at hno
              exact absurd hb hno
            · rw [hcs, hfs, hsv]
              simp [ranksStrictlyIncrease, initial_state, hr1, hr2, hr3]
            · intro run h
              obtain rfl := except_ok_inj h
              have hsfin := finalize_steps _ _ hf
              have hr4 : stepRank ("Final Decision: " ++ pyStr s2.final_decision) = 4 := rfl
              constructor
              · show ranksStrictlyIncrease (List.map stepRank s2.steps) = true
                rw [hsfin, hcs, hfs, hsv]
                simp [ranksStrictlyIncrease, initial_state, hr1, hr2, hr3, hr4]
              · show ∃ l, s2.steps =
                  l ++ ["Final Decision: " ++ pyStr s2.final_decision]
                exact ⟨_, hsfin⟩
          | error e2 =>
            dsimp only
            rw [hev, hfe, hce]
            refine ⟨rfl, rfl, ?_, ?_, ?_, ?_, ?_⟩
            · intro run h
              exact (except_error_ne_ok _ _ h).elim
            · intro e' h
              rfl
            · intro hno
              rw [hfact] at hno
              exact absurd hb hno
            · rw [hcs, hfs, hsv]
              simp [ranksStrictlyIncrease, initial_state, hr1, hr2, hr3]
            · intro run h
              exact (except_error_ne_ok _ _ h).elim
        | error ec =>
          have hce : (compliance_check_node loads r3
              (fraud_investigation_node loads r2
                (risk_analysis_node loads r1 (initial_state t)).1).1).2 =
              [WfEvent.agent_thinking "Compliance Officer"
                 "Checking regulatory requirements..."] := by
            unfold compliance_check_node
            rw [hct]
          have hcs : (compliance_check_node loads r3
              (fraud_investigation_node loads r2
                (risk_analysis_node loads r1 (initial_state t)).1).1).1.steps =
              (fraud_investigation_node loads r2
                (risk_analysis_node loads r1 (initial_state t)).1).1.steps ++
              ["Compliance Officer: Error - " ++ ec] := by
            unfold compliance_check_node
            rw [hct]
          have hr3 : stepRank ("Compliance Officer: Error - " ++ ec) = 3 := rfl
          cases hf : finalize_node (compliance_check_node loads r3
              (fraud_investigation_node loads r2
                (risk_analysis_node loads r1 (initial_state t)).1).1).1 with
          | ok s2 =>
            dsimp only
            rw [hev, hfe, hce]
            refine ⟨rfl, rfl, ?_, ?_, ?_, ?_, ?_⟩
            · intro run h
              obtain rfl := except_ok_inj h
              exact ⟨rfl, rfl⟩
            · intro e' h
              exact (except_ok_ne_error _ _ h).elim
            · intro hno
              rw [hfact] at hno
              exact absurd hb hno
            · rw [hcs, hfs, hsv]
              simp [ranksStrictlyIncrease, initial_state, hr1, hr2, hr3]
            · intro run h
              obtain rfl := except_ok_inj h
              have hsfin := finalize_steps _ _ hf
              have hr4 : stepRank ("Final Decision: " ++ pyStr s2.final_decision) = 4 := rfl
              constructor
              · show ranksStrictlyIncrease (List.map stepRank s2.steps) = true
                rw [hsfin, hcs, hfs, hsv]
                simp [ranksStrictlyIncrease, initial_state, hr1, hr2, hr3, hr4]
              · show ∃ l, s2.steps =
                  l ++ ["Final Decision: " ++ pyStr s2.final_decision]
                exact ⟨_, hsfin⟩
          | error e2 =>
            dsimp only
            rw [hev, hfe, hce]
            refine ⟨rfl, rfl, ?_, ?_, ?_, ?_, ?_⟩
            · intro run h
              exact (except_error_ne_ok _ _ h).elim
            · intro e' h
              rfl
            · intro hno
              rw [hfact] at hno
              exact absurd hb hno
            · rw [hcs, hfs, hsv]
              simp [ranksStrictlyIncrease, initial_state, hr1, hr2, hr3]
            · intro run h
              exact (except_error_ne_ok _ _ h).elim
    · have key : run_stages loads r1 r2 r3 t =
          risk_analysis_node loads r1 (initial_state t) := by
        unfold run_stages
        dsimp only
        rw [hfact]
        simp [hb]
      unfold investigate
      dsimp only
      rw [key]
      cases hf : finalize_node (risk_analysis_node loads r1 (initial_state t)).1 with
      | ok s2 =>
        dsimp only
        rw [hev]
        refine ⟨rfl, rfl, ?_, ?_, ?_, ?_, ?_⟩
        · intro run h
          obtain rfl := except_ok_inj h
          exact ⟨rfl, rfl⟩
        · intro e' h
          exact (except_ok_ne_error _ _ h).elim
        · intro _
          rfl
        · rw [hsv]
          rfl
        · intro run h
          obtain rfl := except_ok_inj h
          have hsfin := finalize_steps _ _ hf
          have hr4 : stepRank ("Final Decision: " ++ pyStr s2.final_decision) = 4 := rfl
          constructor
          · show ranksStrictlyIncrease (List.map stepRank s2.steps) = true
            rw [hsfin, hsv]
            simp [ranksStrictlyIncrease, initial_state, hr1, hr4]
          · show ∃ l, s2.steps =
              l ++ ["Final Decision: " ++ pyStr s2.final_decision]
            exact ⟨_, hsfin⟩
      | error e2 =>
        dsimp only
        rw [hev]
        refine ⟨rfl, rfl, ?_, ?_, ?_, ?_, ?_⟩
        · intro run h
          exact (except_error_ne_ok _ _ h).elim
        · intro e' h
          rfl
        · intro _
          rfl
        · rw [hsv]
          rfl
        · intro run h
          exact (except_error_ne_ok _ _ h).elim

/-- C9 counterexample: a capability response whose finding carries a
DECLINE recommendation and a non-string fraud_indicators entry makes
Finalizing raise, so the run emits events for every stage but no terminal
investigation_complete event at all — not "exactly one". -/
theorem c9_counterexample :
    exceptIsOk (investigate loads9 (.ok "junk") (.ok "R2") (.ok "junk") txHigh).1
      = false
    ∧ ((investigate loads9 (.ok "junk") (.ok "R2") (.ok "junk")
        txHigh).2).countP isCompleteEv = 0
    ∧ ((investigate loads9 (.ok "junk") (.ok "R2") (.ok "junk")
        txHigh).2).map eventRank = [0, 1, 2, 3, 4, 5, 6] :=
  ⟨rfl, rfl, rfl⟩

/-- Witness for the amended C9: a completed escalated run has a strictly
increasing event trace with exactly one terminal event, and its step log is
likewise in strict stage order. -/
theorem c9_witness :
    ranksStrictlyIncrease (((investigate loadsNone (.ok "junk") (.ok "junk")
      (.ok "junk") txHigh).2).map eventRank) = true
    ∧ ((investigate loadsNone (.ok "junk") (.ok "junk") (.ok "junk")
        txHigh).2).countP isCompleteEv = 1
    ∧ ranksStrictlyIncrease ((runSteps (investigate loadsNone (.ok "junk")
        (.ok "junk") (.ok "junk") txHigh).1).map stepRank) = true := by
  have h := c9_event_ordering loadsNone (.ok "junk") (.ok "junk") (.ok "junk") txHigh
  exact ⟨h.1, (h.2.2.1 _ rfl).2, (h.2.2.2.2.2.2 _ rfl).1⟩
